import Mathlib

/-!
Verification development for the HVAC header-classification and
threshold-diagnostic engine of `streamlit_app.py`.

The Python source is shallowly embedded:
* string helpers (`lower`, `strip`, Python's `in` substring test) are
  reimplemented over `List Char`;
* the classifier `parse_headers_enhanced` becomes `parseHeadersEnhanced`,
  a fold of one classification step per header, mirroring the source's
  `if/elif` chain branch for branch;
* numeric cells are modelled as `Option ℚ` (the per-cell outcome of
  `pd.to_numeric(..., errors='coerce')`, `none` meaning NaN), and
  `.dropna()` as `List.filterMap id`;
* pandas statistics (`mean`, `std` with ddof = 1, `diff`, `max`, `min`)
  are given exact rational counterparts; comparisons against a sample
  standard deviation `std > c` (`c > 0`) are embedded as the equivalent
  `length ≥ 2 ∧ c² < sampleVar` so everything stays in ℚ;
* the finding message strings keep the static template text and the
  column header, eliding only the interpolated numeric statistic
  (e.g. the `(Avg: 41.3 PSI)` suffix), which no property depends on.
-/

namespace HvacSpec

/-- One-character-at-a-time check that `n` occurs at the front of the
second list (Python string equality is exact, so `==` on `Char`). -/
def leadsList : List Char → List Char → Bool
  | [], _ => true
  | _ :: _, [] => false
  | a :: as, b :: bs => a == b && leadsList as bs

/-- `subListOf n h` is Python's `n in h` on the underlying character
lists: `n` occurs contiguously somewhere in `h`. -/
def subListOf (n : List Char) : List Char → Bool
  | [] => leadsList n []
  | c :: cs => leadsList n (c :: cs) || subListOf n cs

/-- Python's substring test `needle in hay`. -/
def pyIn (needle hay : String) : Bool := subListOf needle.data hay.data

/-- Python's `str.lower()` (ASCII range, as the source headers are ASCII). -/
def pyLower (s : String) : String := String.mk (s.data.map Char.toLower)

/-- Whitespace recognised by Python's `str.strip()` (the tab/newline
forms that can occur in CSV headers). -/
def isSpaceChar (c : Char) : Bool := c == ' ' || c == '\t' || c == '\n' || c == '\r'

/-- Python's `str.strip()`. -/
def pyStrip (s : String) : String :=
  String.mk (((s.data.dropWhile isSpaceChar).reverse.dropWhile isSpaceChar).reverse)

/-- The role→column-index mapping built by `parse_headers_enhanced`
(the `mapping` dictionary, lines 26–41 of the source). -/
structure Mapping where
  suctionPressures : List ℕ
  dischargePressures : List ℕ
  suctionTemps : List ℕ
  supplyAirTemps : List ℕ
  dischargeTemps : List ℕ
  outdoorAirTemps : List ℕ
  coolingSetpoints : List ℕ
  heatingSetpoints : List ℕ
  indoorRH : List ℕ
  outdoorRH : List ℕ
  indoorTemps : List ℕ
  date : Option ℕ
  time : Option ℕ
  datetime : Option ℕ
deriving DecidableEq

/-- The all-empty mapping the classifier starts from. -/
def emptyMapping : Mapping :=
  ⟨[], [], [], [], [], [], [], [], [], [], [], none, none, none⟩

/-- The role a single branch of the classifier's `if/elif` chain assigns. -/
inductive Role where
  | dtR | dateR | timeR | inRH | outRH | inT | sucT | supT | disT | oaT
  | sucP | disP | cspR | hspR
deriving DecidableEq

/-- First-match evaluation of an ordered list of (predicate-value, role)
pairs: exactly an `elif` chain. -/
def firstMatch : List (Bool × Role) → Option Role
  | [] => none
  | (c, r) :: rest => if c then some r else firstMatch rest

/-- Branches 2–13 of the `if/elif` chain of `parse_headers_enhanced`
(source lines 50–93), in source order, evaluated on the lower-cased
stripped header. The date/time branches carry the source's
`mapping[...] is None` guards; a guarded-out header falls through to the
later branches, exactly as the `elif` chain does. Branch 4 resolves its
indoor/outdoor humidity sub-`if` inline. -/
def roleRules (m : Mapping) (hl : String) : List (Bool × Role) :=
  [ (pyIn "date" hl && m.date.isNone, .dateR),
    (pyIn "time" hl && m.time.isNone, .timeR),
    (pyIn "rel hum" hl || pyIn "rel. hum" hl || pyIn "relative humidity" hl || pyIn "rh" hl,
      if pyIn "oa rh" hl || pyIn "outdoor" hl || pyIn "outside" hl
          || pyIn "outside air rh" hl then .outRH else .inRH),
    (pyIn "indoor temp" hl || pyIn "indoor temperature" hl || pyIn "room temp" hl
      || pyIn "spacetemp" hl || pyIn "space temp" hl || pyIn "space-temp" hl, .inT),
    (pyIn "1suctmp1" hl || pyIn "suctmp" hl || pyIn "suc tmp" hl || pyIn "suction tmp" hl
      || pyIn "suction_tmp" hl || pyIn "suction temp" hl || pyIn "suction-temp" hl, .sucT),
    (pyIn "sat" hl || pyIn "supply air" hl || pyIn "supply_air" hl
      || pyIn "discharge temp" hl, .supT),
    ((pyIn "dischg" hl || pyIn "dis chg" hl || pyIn "discharge" hl) && pyIn "temp" hl, .disT),
    ((pyIn "oat" hl || pyIn "outdoor" hl || pyIn "outside" hl)
      && (pyIn "temp" hl || pyIn "air" hl), .oaT),
    ((pyIn "1sucpr1" hl || pyIn "suction" hl || pyIn "sucpr" hl || pyIn "suc pr" hl
        || pyIn "suction pr" hl || pyIn "suction_pr" hl)
      || ((pyIn "suc" hl || pyIn "suction" hl) && (pyIn "pr" hl || pyIn "pressure" hl)), .sucP),
    ((pyIn "1dischg1" hl || pyIn "dischg" hl || pyIn "dis chg" hl || pyIn "discharge pr" hl
        || pyIn "head pr" hl || pyIn "headpr" hl || pyIn "1cond1" hl || pyIn "1headpr1" hl)
      || ((pyIn "discharge" hl || pyIn "head" hl || pyIn "cond" hl)
          && (pyIn "pr" hl || pyIn "pressure" hl)), .disP),
    ((pyIn "csp" hl || pyIn "cool" hl || pyIn "cooling" hl)
      && (pyIn "sp" hl || pyIn "setpoint" hl), .cspR),
    ((pyIn "hsp" hl || pyIn "heat" hl || pyIn "heating" hl)
      && (pyIn "sp" hl || pyIn "setpoint" hl), .hspR) ]

/-- Branches 2–13 of the chain as a first-match scan over `roleRules`. -/
def chooseRoleRest (m : Mapping) (hl : String) : Option Role :=
  firstMatch (roleRules m hl)

/-- The full `if/elif` chain: the timestamp/datetime branch (source line
48) first — note it has no `is None` guard, unlike date and time — then
the rest. -/
def chooseRole (m : Mapping) (hl : String) : Option Role :=
  if pyIn "timestamp" hl || pyIn "datetime" hl then some .dtR
  else chooseRoleRest m hl

/-- Record the chosen role for column `i`: append to the multi-valued
role lists, overwrite the single-valued date/time/datetime slots (the
source assigns `mapping[...] = i`). -/
def applyRole (m : Mapping) (i : ℕ) : Option Role → Mapping
  | none => m
  | some .dtR => { m with datetime := some i }
  | some .dateR => { m with date := some i }
  | some .timeR => { m with time := some i }
  | some .inRH => { m with indoorRH := m.indoorRH ++ [i] }
  | some .outRH => { m with outdoorRH := m.outdoorRH ++ [i] }
  | some .inT => { m with indoorTemps := m.indoorTemps ++ [i] }
  | some .sucT => { m with suctionTemps := m.suctionTemps ++ [i] }
  | some .supT => { m with supplyAirTemps := m.supplyAirTemps ++ [i] }
  | some .disT => { m with dischargeTemps := m.dischargeTemps ++ [i] }
  | some .oaT => { m with outdoorAirTemps := m.outdoorAirTemps ++ [i] }
  | some .sucP => { m with suctionPressures := m.suctionPressures ++ [i] }
  | some .disP => { m with dischargePressures := m.dischargePressures ++ [i] }
  | some .cspR => { m with coolingSetpoints := m.coolingSetpoints ++ [i] }
  | some .hspR => { m with heatingSetpoints := m.heatingSetpoints ++ [i] }

/-- One loop iteration of `parse_headers_enhanced` for header `h` at
column index `i`: `h_clean = str(h).strip()`, `header_lower = h_clean.lower()`,
then the `if/elif` chain. -/
def classifyStep (m : Mapping) (i : ℕ) (h : String) : Mapping :=
  applyRole m i (chooseRole m (pyLower (pyStrip h)))

/-- `parse_headers_enhanced(headers)` (source lines 24–95): fold the
classification step over `enumerate(headers)`. -/
def parseHeadersEnhanced (headers : List String) : Mapping :=
  headers.enum.foldl (fun m p => classifyStep m p.1 p.2) emptyMapping

/-- `ind p` is 1 when `p` holds, else 0 — used to count in how many
role categories an index appears. -/
def ind (p : Prop) [Decidable p] : ℕ := if p then 1 else 0

/-- In how many role categories of the mapping does column index `i`
appear? (Each list counts once by membership; each single-valued slot
counts once by equality.) -/
def roleCount (m : Mapping) (i : ℕ) : ℕ :=
  ind (i ∈ m.suctionPressures) + ind (i ∈ m.dischargePressures)
    + ind (i ∈ m.suctionTemps) + ind (i ∈ m.supplyAirTemps)
    + ind (i ∈ m.dischargeTemps) + ind (i ∈ m.outdoorAirTemps)
    + ind (i ∈ m.coolingSetpoints) + ind (i ∈ m.heatingSetpoints)
    + ind (i ∈ m.indoorRH) + ind (i ∈ m.outdoorRH) + ind (i ∈ m.indoorTemps)
    + ind (m.date = some i) + ind (m.time = some i) + ind (m.datetime = some i)

/-- Does a header match the timestamp-combined branch (source line 48)? -/
def isDatetimeHeader (h : String) : Bool :=
  pyIn "timestamp" (pyLower (pyStrip h)) || pyIn "datetime" (pyLower (pyStrip h))

/-- The index of the last header matching the timestamp-combined
keywords, the spec-side characterisation used to settle how repeated
`timestamp`/`datetime` headers are resolved. -/
def lastDatetimeIdx (headers : List String) : Option ℕ :=
  headers.enum.foldl (fun acc p => if isDatetimeHeader p.2 then some p.1 else acc) none

/-- One raw column after per-cell numeric coercion: each cell is the
result of `pd.to_numeric(cell, errors='coerce')`, with `none` for NaN
(unparseable or missing). -/
abbrev RawCol := List (Option ℚ)

/-- `.dropna()`: keep exactly the successfully coerced entries, in order. -/
def dropna (c : RawCol) : List ℚ := c.filterMap id

/-- `headers[idx]` (classifier indices are in range for the header list
they were computed from; out-of-range defaults are never exercised). -/
def headerAt (headers : List String) (idx : ℕ) : String := headers.getD idx ""

/-- `df.iloc[:, idx]` as a coerced column. -/
def colAt (cols : List RawCol) (idx : ℕ) : RawCol := cols.getD idx []

/-- `pd.to_numeric(df.iloc[:, idx], errors='coerce').dropna()`. -/
def dataAt (cols : List RawCol) (idx : ℕ) : List ℚ := dropna (colAt cols idx)

/-- Sum of a rational list. -/
def qsum (xs : List ℚ) : ℚ := xs.foldl (fun a b => a + b) 0

/-- pandas `.mean()` of a non-NaN series (only ever used on non-empty
series, behind the source's `len(...) > 0` guards). -/
def mean (xs : List ℚ) : ℚ := qsum xs / (xs.length : ℚ)

/-- pandas sample variance (`ddof = 1`); meaningful only for length ≥ 2,
exactly where `stdGT` uses it. -/
def sampleVar (xs : List ℚ) : ℚ :=
  qsum (xs.map (fun x => (x - mean xs) ^ 2)) / ((xs.length : ℚ) - 1)

/-- pandas `series.std() > c` for a positive threshold `c`: the std of a
length-1 series is NaN (comparison false), otherwise `std > c ↔ c² < var`.
This keeps the embedding in exact rational arithmetic. -/
def stdGT (xs : List ℚ) (c : ℚ) : Bool :=
  decide (2 ≤ xs.length) && decide (c ^ 2 < sampleVar xs)

/-- pandas `.max()` (used behind non-emptiness guards). -/
def qmax : List ℚ → ℚ
  | [] => 0
  | x :: xs => xs.foldl max x

/-- pandas `.min()` (used behind non-emptiness guards). -/
def qmin : List ℚ → ℚ
  | [] => 0
  | x :: xs => xs.foldl min x

/-- pandas `series.diff()` restricted to its non-NaN entries: the n−1
successive differences (the leading NaN never matters, because every
comparison against it in the source yields False and every `std`/count
skips it). -/
def diffs : List ℚ → List ℚ
  | x :: y :: rest => (y - x) :: diffs (y :: rest)
  | _ => []

/-- One diagnostic result appended to `issues` by
`analyze_hvac_data_enhanced`. `message` keeps the template text and the
column header; the interpolated numeric statistic is elided. -/
structure Finding where
  severity : String
  message : String
  explanation : String
  suggestions : List String
  issue_type : String
deriving DecidableEq

/-- Source lines 194–200. -/
def highSuctionF (h : String) : Finding :=
  ⟨"high", "High suction pressure detected in " ++ h,
    "High suction pressure may indicate system overcharge or restricted airflow",
    ["Check refrigerant levels", "Inspect air filters", "Verify ductwork"],
    "refrigerant_system"⟩

/-- Source lines 202–208. -/
def lowSuctionF (h : String) : Finding :=
  ⟨"medium", "Low suction pressure detected in " ++ h,
    "Low suction pressure may indicate refrigerant leak or expansion valve issues",
    ["Check for refrigerant leaks", "Inspect expansion valve", "Verify system charge"],
    "refrigerant_system"⟩

/-- Source lines 212–218. -/
def suctionVariabilityF (h : String) : Finding :=
  ⟨"medium", "High suction pressure variability in " ++ h,
    "Unstable suction pressure indicates cycling issues or control problems",
    ["Check expansion valve operation", "Inspect refrigerant flow", "Verify system controls"],
    "control_system"⟩

/-- Source lines 230–236. -/
def highDischargeF (h : String) : Finding :=
  ⟨"high", "High discharge pressure detected in " ++ h,
    "High discharge pressure indicates condenser problems, overcharge, or airflow restrictions.",
    ["Clean condenser coil", "Check condenser fan operation", "Verify proper airflow",
      "Check for overcharge"],
    "condenser_system"⟩

/-- Source lines 238–244. -/
def lowDischargeF (h : String) : Finding :=
  ⟨"medium", "Low discharge pressure detected in " ++ h,
    "Low discharge pressure may indicate undercharge, compressor wear, or valve problems.",
    ["Check refrigerant charge", "Test compressor valves", "Inspect for internal leaks",
      "Verify compressor operation"],
    "compressor_system"⟩

/-- Source lines 248–254. -/
def unstableDischargeF (h : String) : Finding :=
  ⟨"medium", "Unstable discharge pressure in " ++ h,
    "Pressure instability suggests condenser fan cycling or refrigerant flow issues.",
    ["Check condenser fan control", "Inspect refrigerant metering", "Verify system capacity"],
    "condenser_system"⟩

/-- Source lines 267–273. -/
def sucTempHighF (h : String) : Finding :=
  ⟨"medium", "High suction temperature in " ++ h,
    "High suction temperature indicates low refrigerant charge or expansion valve problems.",
    ["Check superheat settings", "Verify refrigerant charge", "Inspect expansion valve",
      "Check for restrictions"],
    "refrigerant_system"⟩

/-- Source lines 275–281. -/
def sucTempLowF (h : String) : Finding :=
  ⟨"high", "Low suction temperature risk in " ++ h,
    "Very low suction temperature risks liquid refrigerant returning to compressor.",
    ["Check superheat immediately", "Verify proper airflow", "Inspect expansion valve",
      "Check for flooding"],
    "refrigerant_system"⟩

/-- Source lines 285–291. -/
def sucTempInstabF (h : String) : Finding :=
  ⟨"low", "Suction temperature instability in " ++ h,
    "Temperature fluctuations suggest evaporator loading or refrigerant flow issues.",
    ["Check evaporator coil", "Inspect refrigerant distribution", "Verify airflow patterns"],
    "evaporator_system"⟩

/-- Source lines 303–309. -/
def supplyHighF (h : String) : Finding :=
  ⟨"high", "High discharge temperature in " ++ h,
    "High discharge temperature indicates compressor stress, poor heat rejection, or overcharge.",
    ["Check condenser operation", "Verify proper airflow", "Check refrigerant charge",
      "Inspect compressor condition"],
    "compressor_system"⟩

/-- Source lines 311–317. -/
def supplyLowF (h : String) : Finding :=
  ⟨"medium", "Very low supply air temperature in " ++ h,
    "Extremely low supply air temperature may indicate overcooling or control issues.",
    ["Check thermostat settings", "Verify cooling load", "Inspect damper operation",
      "Check for overcooling"],
    "control_system"⟩

/-- Source lines 322–328. -/
def supplySpreadF (h : String) : Finding :=
  ⟨"medium", "Wide supply air temperature range in " ++ h,
    "Large temperature variations suggest capacity control or load matching issues.",
    ["Check capacity control", "Verify load calculations", "Inspect modulation systems",
      "Review control sequences"],
    "capacity_control"⟩

/-- Source lines 349–355 (the message carries only the ratio value). -/
def ratioHighF : Finding :=
  ⟨"high", "High compression ratio detected",
    "High compression ratio indicates inefficient operation and potential compressor stress.",
    ["Check condenser performance", "Verify refrigerant charge", "Inspect evaporator operation",
      "Consider load reduction"],
    "compressor_efficiency"⟩

/-- Source lines 357–363. -/
def ratioLowF : Finding :=
  ⟨"medium", "Low compression ratio detected",
    "Low compression ratio may indicate compressor wear or bypass issues.",
    ["Test compressor valves", "Check internal leakage", "Verify compressor condition",
      "Inspect refrigerant circuit"],
    "compressor_wear"⟩

/-- Source lines 376–382. -/
def rhHighF (h : String) : Finding :=
  ⟨"medium", "High indoor humidity in " ++ h,
    "High indoor humidity promotes mold growth and reduces comfort.",
    ["Increase dehumidification", "Check drainage", "Verify ventilation rates",
      "Inspect ductwork for leaks"],
    "humidity_control"⟩

/-- Source lines 384–390. -/
def rhLowF (h : String) : Finding :=
  ⟨"low", "Low indoor humidity in " ++ h,
    "Low humidity can cause discomfort and static electricity issues.",
    ["Add humidification systems", "Check for excessive ventilation",
      "Inspect building envelope"],
    "humidity_control"⟩

/-- Source lines 394–400. -/
def rhUnstableF (h : String) : Finding :=
  ⟨"low", "Unstable indoor humidity in " ++ h,
    "Humidity swings indicate poor humidity control or cycling issues.",
    ["Check humidity control systems", "Verify proper sizing", "Inspect control sequences"],
    "humidity_control"⟩

/-- Source lines 413–419. -/
def extremeOutdoorF : Finding :=
  ⟨"medium", "Extreme outdoor temperatures detected",
    "High outdoor temperatures stress the cooling system and reduce efficiency.",
    ["Monitor system performance closely", "Check condenser operation",
      "Verify adequate airflow", "Consider load management"],
    "environmental_stress"⟩

/-- Source lines 422–428. -/
def freezingOutdoorF : Finding :=
  ⟨"low", "Freezing outdoor temperatures detected",
    "Freezing conditions may affect heat pump operation or cause freeze protection issues.",
    ["Check freeze protection systems", "Verify heat pump defrost cycles",
      "Monitor drainage systems"],
    "freeze_protection"⟩

/-- Source lines 444–450. -/
def lowDiffF : Finding :=
  ⟨"medium", "Low temperature differential detected",
    "Low temperature differential indicates reduced system capacity or airflow issues.",
    ["Check airflow rates", "Inspect coil performance", "Verify refrigerant charge",
      "Check for restrictions"],
    "system_capacity"⟩

/-- Source lines 452–458. -/
def highDiffF : Finding :=
  ⟨"medium", "High temperature differential detected",
    "High temperature differential may indicate insufficient airflow or oversized equipment.",
    ["Check fan operation", "Inspect ductwork", "Verify equipment sizing",
      "Check filter restrictions"],
    "airflow_restriction"⟩

/-- Source lines 472–478. -/
def shortCyclingF (h : String) : Finding :=
  ⟨"medium", "Potential short cycling detected in " ++ h,
    "Frequent pressure changes suggest system is cycling on and off too frequently.",
    ["Check thermostat differential", "Verify system sizing", "Inspect control systems",
      "Check for refrigerant issues"],
    "short_cycling"⟩

/-- Source lines 498–504. -/
def subcoolLowF : Finding :=
  ⟨"medium", "Low subcooling detected",
    "Low subcooling indicates potential undercharge or heat rejection issues.",
    ["Check refrigerant charge", "Inspect condenser performance", "Verify proper airflow"],
    "subcooling_low"⟩

/-- Source lines 506–512. -/
def subcoolHighF : Finding :=
  ⟨"low", "High subcooling detected",
    "High subcooling may indicate overcharge or condenser oversizing.",
    ["Check for overcharge", "Verify condenser operation", "Consider load conditions"],
    "subcooling_high"⟩

/-- Source lines 527–533. -/
def overshootF : Finding :=
  ⟨"medium", "Consistent temperature overshoot",
    "Temperature consistently above setpoint indicates insufficient cooling capacity.",
    ["Check system capacity", "Verify refrigerant charge", "Inspect airflow",
      "Consider load analysis"],
    "capacity_insufficient"⟩

/-- Source lines 535–541. -/
def undershootF : Finding :=
  ⟨"low", "Consistent temperature undershoot",
    "Temperature consistently below setpoint may indicate oversized equipment or control issues.",
    ["Check control settings", "Verify equipment sizing", "Inspect thermostat operation"],
    "overcooling"⟩

/-- Source lines 552–558. -/
def migrationF (h : String) : Finding :=
  ⟨"low", "Potential refrigerant migration detected in " ++ h,
    "Pressure drops during off-cycles may indicate refrigerant migration to evaporator.",
    ["Check crankcase heater", "Inspect liquid line solenoid",
      "Verify proper shutdown procedures"],
    "refrigerant_migration"⟩

/-- Source lines 574–580. -/
def flowRestrictionF : Finding :=
  ⟨"medium", "Variable pressure differential suggests flow restrictions",
    "Inconsistent pressure differential may indicate intermittent flow restrictions.",
    ["Check liquid line filters", "Inspect expansion valve", "Verify proper refrigerant flow",
      "Check for moisture/debris"],
    "flow_restriction"⟩

/-- Source lines 593–599. -/
def declineF (h : String) : Finding :=
  ⟨"medium", "Gradual pressure decline detected in " ++ h,
    "Decreasing discharge pressure over time may indicate compressor wear or refrigerant loss.",
    ["Monitor compressor performance", "Check for refrigerant leaks",
      "Consider compressor evaluation"],
    "compressor_degradation"⟩

/-- Source lines 607–613. -/
def icingF (h : String) : Finding :=
  ⟨"high", "Evaporator icing risk detected in " ++ h,
    "Suction temperatures below freezing indicate potential evaporator icing.",
    ["Check airflow immediately", "Inspect air filters", "Verify proper refrigerant charge",
      "Check defrost operation"],
    "icing_risk"⟩

/-- Source lines 626–632. -/
def huntingF (h : String) : Finding :=
  ⟨"medium", "Control hunting detected in " ++ h,
    "Frequent temperature oscillations suggest control system instability.",
    ["Adjust control parameters", "Check sensor calibration", "Verify control logic",
      "Consider PID tuning"],
    "control_hunting"⟩

/-- Suction-pressure rules, source lines 185–218: one per-column pass
guarded by `len(col_data) > 0`; `avg > 200` / `elif avg < 50`, and
independently `std > 15`. -/
def suctionPressureFindings (h : String) (data : List ℚ) : List Finding :=
  if data.isEmpty then [] else
    (if 200 < mean data then [highSuctionF h]
     else if mean data < 50 then [lowSuctionF h] else [])
    ++ (if stdGT data 15 then [suctionVariabilityF h] else [])

/-- Discharge-pressure rules, source lines 221–254: `avg > 400` /
`elif avg < 150`, and independently `std > 20`. -/
def dischargePressureFindings (h : String) (data : List ℚ) : List Finding :=
  if data.isEmpty then [] else
    (if 400 < mean data then [highDischargeF h]
     else if mean data < 150 then [lowDischargeF h] else [])
    ++ (if stdGT data 20 then [unstableDischargeF h] else [])

/-- Suction-temperature rules, source lines 258–291. -/
def suctionTempFindings (h : String) (data : List ℚ) : List Finding :=
  if data.isEmpty then [] else
    (if 65 < mean data then [sucTempHighF h]
     else if mean data < 35 then [sucTempLowF h] else [])
    ++ (if stdGT data 8 then [sucTempInstabF h] else [])

/-- Supply-air / discharge-temperature rules, source lines 294–328
(the same pass runs over `supplyAirTemps + dischargeTemps`). -/
def supplyAirFindings (h : String) (data : List ℚ) : List Finding :=
  if data.isEmpty then [] else
    (if 120 < mean data then [supplyHighF h]
     else if mean data < 50 then [supplyLowF h] else [])
    ++ (if 25 < qmax data - qmin data then [supplySpreadF h] else [])

/-- Compression-ratio rule for one (suction, discharge) column pair,
source lines 332–363: both series truncated to the shorter length, then
the mean of the element-wise ratio is compared with 4.5 and 2.0.
(In pandas a zero suction sample makes the ratio infinite; ℚ division
returns 0 there instead. No property proved here exercises a zero
denominator.) -/
def ratioFindings (suctData dischData : List ℚ) : List Finding :=
  if suctData.isEmpty || dischData.isEmpty then [] else
    let k := min suctData.length dischData.length
    let avgRatio := mean (List.zipWith (fun d s => d / s) (dischData.take k) (suctData.take k))
    if 4.5 < avgRatio then [ratioHighF]
    else if avgRatio < 2 then [ratioLowF] else []

/-- Indoor-humidity rules, source lines 367–400. -/
def indoorRHFindings (h : String) (data : List ℚ) : List Finding :=
  if data.isEmpty then [] else
    (if 60 < mean data then [rhHighF h]
     else if mean data < 30 then [rhLowF h] else [])
    ++ (if stdGT data 10 then [rhUnstableF h] else [])

/-- Outdoor-temperature rules, source lines 404–428: two independent
`if`s on max and min. -/
def outdoorTempFindings (data : List ℚ) : List Finding :=
  if data.isEmpty then [] else
    (if 95 < qmax data then [extremeOutdoorF] else [])
    ++ (if qmin data < 32 then [freezingOutdoorF] else [])

/-- Temperature-differential rule for one (supply, indoor) pair, source
lines 432–458: `return − supply` truncated to the shorter length. -/
def tempDiffFindings (supplyData returnData : List ℚ) : List Finding :=
  if supplyData.isEmpty || returnData.isEmpty then [] else
    let k := min supplyData.length returnData.length
    let avgDiff := mean (List.zipWith (fun a b => a - b) (returnData.take k) (supplyData.take k))
    if avgDiff < 15 then [lowDiffF]
    else if 25 < avgDiff then [highDiffF] else []

/-- Fraction numerator of the short-cycling test, source lines 466–469:
how many absolute successive differences exceed twice their own sample
std (`d > 2σ ↔ 4·var < d²` since both sides are non-negative). Only
invoked with ≥ 10 differences, where the sample variance is defined. -/
def rapidCount (xs : List ℚ) : ℕ :=
  (xs.filter (fun d => decide (4 * sampleVar xs < d ^ 2))).length

/-- Short-cycling rule for one pressure column, source lines 462–478:
needs `len > 10`, fires when more than 20% of readings changed rapidly. -/
def shortCycleFindings (h : String) (data : List ℚ) : List Finding :=
  if 10 < data.length then
    (if (1 : ℚ) / 5 < (rapidCount ((diffs data).map (fun d => |d|)) : ℚ) / (data.length : ℚ)
     then [shortCyclingF h] else [])
  else []

/-- Subcooling rule for one (discharge-temp, discharge-pressure) pair,
source lines 483–512: saturation temp `32 + (p − 14.7)·0.25` minus the
mean discharge temperature. -/
def subcoolingFindings (tempData pressData : List ℚ) : List Finding :=
  if tempData.isEmpty || pressData.isEmpty then [] else
    let sub := (32 + (mean pressData - 14.7) * 0.25) - mean tempData
    if sub < 5 then [subcoolLowF]
    else if 20 < sub then [subcoolHighF] else []

/-- Setpoint-deviation rule for one (cooling-setpoint, indoor-temp)
pair, source lines 515–541: `temp − setpoint` truncated to the shorter
length; `> 3` overshoot, `elif < −2` undershoot. -/
def setpointFindings (spData tempData : List ℚ) : List Finding :=
  if spData.isEmpty || tempData.isEmpty then [] else
    let k := min spData.length tempData.length
    let avgDev := mean (List.zipWith (fun a b => a - b) (tempData.take k) (spData.take k))
    if 3 < avgDev then [overshootF]
    else if avgDev < -2 then [undershootF] else []

/-- Refrigerant-migration rule, source lines 544–558: count successive
drops below −10 PSI; fires when the count exceeds 10% of the readings. -/
def migrationFindings (h : String) (data : List ℚ) : List Finding :=
  if data.isEmpty then [] else
    (if (data.length : ℚ) * (1 / 10) < (((diffs data).filter (fun d => decide (d < -10))).length : ℚ)
     then [migrationF h] else [])

/-- Flow-restriction rule for one (suction, discharge) pair, source
lines 561–580: std of the truncated pressure differential above 30. -/
def flowRestrictionFindings (suctData dischData : List ℚ) : List Finding :=
  if suctData.isEmpty || dischData.isEmpty then [] else
    let k := min suctData.length dischData.length
    if stdGT (List.zipWith (fun a b => a - b) (dischData.take k) (suctData.take k)) 30
    then [flowRestrictionF] else []

/-- Gradual-decline rule, source lines 583–599: needs more than 50
samples; first-half mean minus second-half mean above 15 PSI
(integer halving as Python's `//`). -/
def declineFindings (h : String) (data : List ℚ) : List Finding :=
  if data.isEmpty then [] else
    if 50 < data.length then
      (if 15 < mean (data.take (data.length / 2)) - mean (data.drop (data.length / 2))
       then [declineF h] else [])
    else []

/-- Evaporator-icing rule, source lines 602–613: any reading below 32°F. -/
def icingFindings (h : String) (data : List ℚ) : List Finding :=
  if data.isEmpty then [] else
    (if 0 < (data.filter (fun x => decide (x < 32))).length then [icingF h] else [])

/-- Adjacent sign-indicator changes in a boolean sequence. -/
def adjacentNe : List Bool → ℕ
  | x :: y :: rest => (if x = y then 0 else 1) + adjacentNe (y :: rest)
  | _ => 0

/-- Source lines 621–622: `((changes > 0).astype(int).diff() != 0).sum()`.
The leading NaN of `changes` maps to indicator 0, and the leading NaN of
the second `.diff()` satisfies `NaN != 0`, contributing the fixed `1 +`. -/
def signChanges : List ℚ → ℕ
  | [] => 0
  | data => 1 + adjacentNe (false :: (diffs data).map (fun d => decide (0 < d)))

/-- Control-hunting rule, source lines 616–632: needs more than 20
samples, fires above a 30% direction-change rate. -/
def huntingFindings (h : String) (data : List ℚ) : List Finding :=
  if 20 < data.length then
    (if (3 : ℚ) / 10 < (signChanges data : ℚ) / (data.length : ℚ) then [huntingF h] else [])
  else []

/-- `analyze_hvac_data_enhanced(df, headers, mapping)` (source lines
179–634): the concatenation of every rule pass in declaration order.
Nested `for` loops over two roles become nested binds; the source's
redundant `if mapping[...] and mapping[...]` guards around them are
subsumed by binding over an empty list. -/
def analyzeHvacDataEnhanced (cols : List RawCol) (headers : List String) (m : Mapping) :
    List Finding :=
  (m.suctionPressures.flatMap fun i => suctionPressureFindings (headerAt headers i) (dataAt cols i))
  ++ (m.dischargePressures.flatMap fun i =>
        dischargePressureFindings (headerAt headers i) (dataAt cols i))
  ++ (m.suctionTemps.flatMap fun i => suctionTempFindings (headerAt headers i) (dataAt cols i))
  ++ ((m.supplyAirTemps ++ m.dischargeTemps).flatMap fun i =>
        supplyAirFindings (headerAt headers i) (dataAt cols i))
  ++ (m.suctionPressures.flatMap fun i => m.dischargePressures.flatMap fun j =>
        ratioFindings (dataAt cols i) (dataAt cols j))
  ++ (m.indoorRH.flatMap fun i => indoorRHFindings (headerAt headers i) (dataAt cols i))
  ++ (m.outdoorAirTemps.flatMap fun i => outdoorTempFindings (dataAt cols i))
  ++ (m.supplyAirTemps.flatMap fun i => m.indoorTemps.flatMap fun j =>
        tempDiffFindings (dataAt cols i) (dataAt cols j))
  ++ ((m.suctionPressures ++ m.dischargePressures).flatMap fun i =>
        shortCycleFindings (headerAt headers i) (dataAt cols i))
  ++ (m.dischargeTemps.flatMap fun i => m.dischargePressures.flatMap fun j =>
        subcoolingFindings (dataAt cols i) (dataAt cols j))
  ++ (m.coolingSetpoints.flatMap fun i => m.indoorTemps.flatMap fun j =>
        setpointFindings (dataAt cols i) (dataAt cols j))
  ++ (m.suctionPressures.flatMap fun i => migrationFindings (headerAt headers i) (dataAt cols i))
  ++ (m.suctionPressures.flatMap fun i => m.dischargePressures.flatMap fun j =>
        flowRestrictionFindings (dataAt cols i) (dataAt cols j))
  ++ (m.dischargePressures.flatMap fun i => declineFindings (headerAt headers i) (dataAt cols i))
  ++ (m.suctionTemps.flatMap fun i => icingFindings (headerAt headers i) (dataAt cols i))
  ++ ((m.indoorTemps ++ m.supplyAirTemps).flatMap fun i =>
        huntingFindings (headerAt headers i) (dataAt cols i))

/-- Does a finding match the "High discharge pressure" profile for the
column with header `h`: severity high, issue type `condenser_system`,
and the high-discharge message for that column? Used to count such
findings in the full analysis output. -/
def isHighCondenserFor (h : String) (f : Finding) : Bool :=
  f.severity == "high" && f.issue_type == "condenser_system"
    && f.message == ("High discharge pressure detected in " ++ h)

/-- One entry of the list returned by `check_comfort_conditions`.
The source uses the dictionary key `percent_over` for humidity entries
and `percent_outside` for temperature entries; both are the single
`percent` field here, with `type` telling them apart exactly as in the
source. -/
structure ComfortResult where
  type : String
  column : String
  average : ℚ
  percent : ℚ
  compliant : Bool
deriving DecidableEq

/-- The humidity entry built at source lines 148–159 for one indoor-RH
column: `percent_over` is the percentage of samples strictly above 60,
`compliant` is `percent_over == 0`. -/
def rhComfortResult (h : String) (data : List ℚ) : ComfortResult :=
  ⟨"Indoor Relative Humidity", h, mean data,
    ((data.filter (fun x => decide (60 < x))).length : ℚ) / (data.length : ℚ) * 100,
    decide ((((data.filter (fun x => decide (60 < x))).length : ℚ)
      / (data.length : ℚ) * 100) = 0)⟩

/-- The temperature entry built at source lines 162–175: `percent_outside`
counts samples below 70 plus samples above 75, `compliant` is
`percent_outside == 0`. -/
def tempComfortResult (h : String) (data : List ℚ) : ComfortResult :=
  ⟨"Indoor Temperature", h, mean data,
    (((data.filter (fun x => decide (x < 70))).length
        + (data.filter (fun x => decide (75 < x))).length : ℚ)) / (data.length : ℚ) * 100,
    decide (((((data.filter (fun x => decide (x < 70))).length
        + (data.filter (fun x => decide (75 < x))).length : ℚ)) / (data.length : ℚ) * 100) = 0)⟩

/-- `check_comfort_conditions(df, headers, mapping)` (source lines
140–177): the indoor-RH loop — which skips the literal header
`'1SprHtSP'` by exact string comparison (line 146) and any column whose
coerced series is empty — followed by the indoor-temperature loop. -/
def checkComfortConditions (cols : List RawCol) (headers : List String) (m : Mapping) :
    List ComfortResult :=
  (m.indoorRH.flatMap fun idx =>
    if headerAt headers idx = "1SprHtSP" then []
    else if (dataAt cols idx).isEmpty then []
    else [rhComfortResult (headerAt headers idx) (dataAt cols idx)])
  ++ (m.indoorTemps.flatMap fun idx =>
    if (dataAt cols idx).isEmpty then []
    else [tempComfortResult (headerAt headers idx) (dataAt cols idx)])

/-- `convert_date` (source lines 107–123), on an already-stripped string:
`None` (here `none`) for the string `'nan'`; a `'31-May'`-style value is
rewritten to `2024-⟨month number⟩-⟨zero-padded day⟩`; anything else is
returned unchanged. -/
def monthMap : List (String × String) :=
  [("jan", "01"), ("feb", "02"), ("mar", "03"), ("apr", "04"),
   ("may", "05"), ("jun", "06"), ("jul", "07"), ("aug", "08"),
   ("sep", "09"), ("oct", "10"), ("nov", "11"), ("dec", "12")]

/-- `'-'`-splitting of a character list (Python `str.split('-')`). -/
def splitDash (l : List Char) : List (List Char) :=
  l.foldr (fun x acc =>
    match acc with
    | a :: rest => if x == '-' then [] :: a :: rest else (x :: a) :: rest
    | [] => [[x]]) [[]]

/-- `month_map.get(month.lower()[:3], month)` — note the fallback is the
original (uncased, untruncated) month text. -/
def monthNum (month : String) : String :=
  match monthMap.lookup (String.mk ((pyLower month).data.take 3)) with
  | some v => v
  | none => month

/-- Python `str.zfill(2)` on a day-digit string. -/
def zfill2 (s : String) : String :=
  if s.data.length < 2 then "0" ++ s else s

/-- Python `parts[0].isdigit()` (false on the empty string). -/
def isDigits (s : String) : Bool := !s.data.isEmpty && s.data.all Char.isDigit

def convert_date (s : String) : Option String :=
  if s = "nan" then none
  else if s.data.contains '-' && (splitDash s.data).length == 2 then
    let day := String.mk ((splitDash s.data).getD 0 [])
    let month := String.mk ((splitDash s.data).getD 1 [])
    if isDigits day then some ("2024-" ++ monthNum month ++ "-" ++ zfill2 day)
    else some s
  else some s

/-- The synthetic fallback timeline
`pd.date_range(start='2024-01-01', periods=n, freq='H')` (source lines
133 and 137): timestamps are represented as rational hours since the
2024-01-01 epoch, so the synthetic sequence is `0, 1, 2, …`, one
non-null entry per row. -/
def syntheticTimeline (n : ℕ) : List (Option ℚ) :=
  (List.range n).map (fun k : ℕ => some (k : ℚ))

/-- `create_datetime_column(df, mapping)` (source lines 97–138),
returning the `parsed_datetime` column. Timestamps are rational hours
since the 2024-01-01 epoch; `parseDT` abstracts
`pd.to_datetime(·, errors='coerce')` applied to one cell's string
rendering, returning `none` for an unparseable row. The `try/except`
wrapper is embedded by sending every exception path to the synthetic
sequence:
* an out-of-range column index makes `iloc` raise (caught → synthetic);
* in the date+time branch, a `'nan'` date cell makes `convert_date`
  return `None`, and `None + ' '` then raises `TypeError` inside the
  string concatenation (caught → synthetic);
* in the date-only branch the name `convert_date` is a local bound only
  inside the date+time branch, so the `lambda` of line 130 raises
  `UnboundLocalError` on the first row it is applied to (caught →
  synthetic). With zero rows `Series.apply` never invokes the lambda
  and the branch returns an empty column — which coincides with
  `syntheticTimeline 0`, so the branch is uniformly the synthetic
  sequence here. -/
def createDatetimeColumn (parseDT : String → Option ℚ) (cols : List (List String))
    (nrows : ℕ) (m : Mapping) : List (Option ℚ) :=
  match m.datetime with
  | some i =>
    if h : i < cols.length then (cols.get ⟨i, h⟩).map parseDT
    else syntheticTimeline nrows
  | none =>
    match m.date, m.time with
    | some d, some t =>
      if hd : d < cols.length then
        if ht : t < cols.length then
          let dcol := (cols.get ⟨d, hd⟩).map (fun s => convert_date (pyStrip s))
          let tcol := (cols.get ⟨t, ht⟩).map pyStrip
          if dcol.all Option.isSome then
            (dcol.zip tcol).map (fun p =>
              match p.1 with
              | some ds => parseDT (ds ++ " " ++ p.2)
              | none => none)
          else syntheticTimeline nrows
        else syntheticTimeline nrows
      else syntheticTimeline nrows
    | some _, none => syntheticTimeline nrows
    | none, _ => syntheticTimeline nrows

/-- Modelled from the spec: the repository's Recommendation Aggregator
(spec §4.5) is not part of the sources available under `src/` (the
included file only groups findings by severity for display); the
aggregated `Finding`-with-`priority` input record it consumes is
likewise absent. The record here follows the spec's Finding fields used
by aggregation: an optional `priority` (missing priority defaults to
the low-urgency sentinel 99), the message, severity, and the ordered
suggestion list. -/
structure PFinding where
  priority : Option ℕ
  message : String
  severity : String
  suggestions : List String
deriving DecidableEq

/-- Modelled from the spec: sort key, `priority` with the 99 default. -/
def prioKey (f : PFinding) : ℕ := f.priority.getD 99

/-- Modelled from the spec: one technician Action — the suggestion text
plus the originating finding's message and severity. -/
structure Action where
  text : String
  source : String
  severity : String
deriving DecidableEq

/-- Modelled from the spec: may one more Action be emitted under the
optional cap? -/
def capOk (cap : Option ℕ) (n : ℕ) : Bool :=
  match cap with
  | none => true
  | some c => decide (n < c)

/-- The cap (when one applies) is already reached at output length `n`. -/
def capFull (cap : Option ℕ) (n : ℕ) : Prop :=
  ∃ c, cap = some c ∧ c ≤ n

/-- Modelled from the spec: handle one suggestion text — emit an Action
unless the text was already emitted (case-sensitive exact match against
prior emitted texts) or the cap is reached. -/
def emitStep (cap : Option ℕ) (msg sev : String) (acts : List Action) (s : String) :
    List Action :=
  if (acts.map Action.text).contains s || !capOk cap acts.length then acts
  else acts ++ [⟨s, msg, sev⟩]

/-- Modelled from the spec: process one finding — each of its
suggestions in list order through `emitStep`. -/
def emitOne (cap : Option ℕ) (acc : List Action) (f : PFinding) : List Action :=
  f.suggestions.foldl (emitStep cap f.message f.severity) acc

/-- Modelled from the spec: findings are ordered by priority ascending. -/
def aggRel (f g : PFinding) : Prop := prioKey f ≤ prioKey g

instance : DecidableRel aggRel := fun _ _ => Nat.decLe _ _

/-- Modelled from the spec: the stable priority-ascending sort of the
findings (insertion sort is stable). -/
def sortedFindings (findings : List PFinding) : List PFinding :=
  List.insertionSort aggRel findings

/-- Modelled from the spec (§4.5): stable-sort findings by priority
ascending, then flatten their suggestions into a deduplicated action
list, stopping at the cap when one applies. -/
def aggregate (cap : Option ℕ) (findings : List PFinding) : List Action :=
  (sortedFindings findings).foldl (emitOne cap) []

/-- Proof scaffolding: the aggregator's output after the first `k`
sorted findings have been processed. -/
def aggUpTo (cap : Option ℕ) (findings : List PFinding) (k : ℕ) : List Action :=
  ((sortedFindings findings).take k).foldl (emitOne cap) []

theorem ind_le_one (p : Prop) [Decidable p] : ind p ≤ 1 := by
  unfold ind; split <;> omega

theorem roleCount_applyRole_ne (m : Mapping) (i j : ℕ) (r : Option Role) (hj : j ≠ i) :
    roleCount (applyRole m i r) j ≤ roleCount m j := by
  rcases r with _ | r
  · simp [applyRole]
  · cases r <;>
      simp [applyRole, roleCount, ind, List.mem_append, List.mem_singleton, hj,
        Option.some.injEq, Ne.symm hj]

theorem roleCount_applyRole_self (m : Mapping) (i : ℕ) (r : Option Role) :
    roleCount (applyRole m i r) i ≤ roleCount m i + 1 := by
  rcases r with _ | r
  · simp [applyRole]
  · cases r <;>
      simp [applyRole, roleCount, ind, List.mem_append, List.mem_singleton] <;> omega

theorem parse_aux (hs : List String) :
    ∀ (n : ℕ) (m : Mapping), (∀ j, roleCount m j ≤ 1) → (∀ j, n ≤ j → roleCount m j = 0) →
      ∀ j, roleCount ((List.enumFrom n hs).foldl (fun m p => classifyStep m p.1 p.2) m) j ≤ 1 := by
  induction hs with
  | nil => intro n m h1 _ j; simpa using h1 j
  | cons h t ih =>
    intro n m h1 h2 j
    have hstep1 : ∀ j, roleCount (classifyStep m n h) j ≤ 1 := by
      intro j'
      by_cases hj : j' = n
      · rw [hj]
        have ha := roleCount_applyRole_self m n (chooseRole m (pyLower (pyStrip h)))
        have h0 := h2 n (le_refl n)
        unfold classifyStep
        omega
      · exact le_trans (roleCount_applyRole_ne m n j' _ hj) (h1 j')
    have hstep2 : ∀ j, n + 1 ≤ j → roleCount (classifyStep m n h) j = 0 := by
      intro j' hj'
      have hne : j' ≠ n := by omega
      have ha := roleCount_applyRole_ne m n j' (chooseRole m (pyLower (pyStrip h))) hne
      have h0 := h2 j' (by omega)
      unfold classifyStep at ha ⊢
      omega
    have := ih (n + 1) (classifyStep m n h) hstep1 hstep2 j
    simpa [List.enumFrom] using this

/-- C1: classification assigns each header index to at most one role:
for every header list, no column index appears in more than one role
category of the mapping `parse_headers_enhanced` returns (the `if/elif`
chain assigns the first matching group and examines no further group
for that header). -/
theorem classify_at_most_one_role (headers : List String) (i : ℕ) :
    roleCount (parseHeadersEnhanced headers) i ≤ 1 := by
  have hempty : ∀ j, roleCount emptyMapping j ≤ 1 := by
    intro j; simp [roleCount, emptyMapping, ind]
  have hzero : ∀ j, 0 ≤ j → roleCount emptyMapping j = 0 := by
    intro j _; simp [roleCount, emptyMapping, ind]
  have := parse_aux headers 0 emptyMapping hempty hzero i
  simpa [parseHeadersEnhanced, List.enum] using this

theorem firstMatch_mem {l : List (Bool × Role)} {r : Role} (h : firstMatch l = some r) :
    r ∈ l.map Prod.snd := by
  induction l with
  | nil => simp [firstMatch] at h
  | cons p rest ih =>
    rcases p with ⟨c, r'⟩
    by_cases hc : c = true
    · simp only [firstMatch, hc, if_true, Option.some.injEq] at h
      simp [h]
    · simp only [firstMatch, hc, if_false, Bool.false_eq_true] at h
      simp [ih h]

theorem chooseRoleRest_ne_dtR (m : Mapping) (hl : String) :
    chooseRoleRest m hl ≠ some Role.dtR := by
  intro hcontra
  have hmem := firstMatch_mem hcontra
  simp only [roleRules, List.map, List.mem_cons, List.not_mem_nil, or_false] at hmem
  rcases hmem with h | h | h | h | h | h | h | h | h | h | h | h <;>
    first
      | exact Role.noConfusion h
      | (revert h; split <;> intro h <;> exact Role.noConfusion h)

theorem applyRole_datetime_ne (m : Mapping) (i : ℕ) (r : Option Role)
    (hr : r ≠ some Role.dtR) : (applyRole m i r).datetime = m.datetime := by
  rcases r with _ | r
  · rfl
  cases r <;> first | rfl | exact absurd rfl hr

theorem classifyStep_datetime (m : Mapping) (i : ℕ) (h : String) :
    (classifyStep m i h).datetime = if isDatetimeHeader h then some i else m.datetime := by
  unfold classifyStep chooseRole isDatetimeHeader
  by_cases hd : (pyIn "timestamp" (pyLower (pyStrip h))
      || pyIn "datetime" (pyLower (pyStrip h))) = true
  · rw [if_pos hd, if_pos hd]; rfl
  · rw [if_neg hd, if_neg hd]
    exact applyRole_datetime_ne m i _ (chooseRoleRest_ne_dtR m (pyLower (pyStrip h)))

theorem dt_aux (hs : List String) :
    ∀ (n : ℕ) (m : Mapping),
      ((List.enumFrom n hs).foldl (fun m p => classifyStep m p.1 p.2) m).datetime
        = (List.enumFrom n hs).foldl
            (fun acc p => if isDatetimeHeader p.2 then some p.1 else acc) m.datetime := by
  induction hs with
  | nil => intro n m; rfl
  | cons h t ih =>
    intro n m
    have := ih (n + 1) (classifyStep m n h)
    simpa [List.enumFrom, classifyStep_datetime] using this

/-- C2 counterexample: with two headers matching the timestamp-combined
keywords, the datetime role holds the index of the second one, not the
first — the branch at source line 49 overwrites without an `is None`
guard. -/
theorem datetime_overwrites_cex :
    (parseHeadersEnhanced ["timestamp a", "timestamp b"]).datetime = some 1 ∧
      (parseHeadersEnhanced ["timestamp a", "timestamp b"]).datetime ≠ some 0 := by
  constructor <;> decide

/-- C2 (amended): for every header list, the datetime role of the
resulting mapping holds the index of the last header matching the
timestamp-combined keywords ("timestamp"/"datetime"); each later match
overwrites the stored index. -/
theorem datetime_role_last_match (headers : List String) :
    (parseHeadersEnhanced headers).datetime = lastDatetimeIdx headers := by
  have := dt_aux headers 0 emptyMapping
  simpa [parseHeadersEnhanced, lastDatetimeIdx, emptyMapping, List.enum] using this

theorem comfort_mem_cases {cols : List RawCol} {headers : List String} {m : Mapping}
    {r : ComfortResult} (hr : r ∈ checkComfortConditions cols headers m) :
    (∃ idx ∈ m.indoorRH, headerAt headers idx ≠ "1SprHtSP" ∧ dataAt cols idx ≠ [] ∧
        r = rhComfortResult (headerAt headers idx) (dataAt cols idx)) ∨
    (∃ idx ∈ m.indoorTemps, dataAt cols idx ≠ [] ∧
        r = tempComfortResult (headerAt headers idx) (dataAt cols idx)) := by
  unfold checkComfortConditions at hr
  rcases List.mem_append.mp hr with h | h
  · left
    rcases List.mem_flatMap.mp h with ⟨idx, hidx, hmem⟩
    by_cases h1 : headerAt headers idx = "1SprHtSP"
    · simp [h1] at hmem
    · by_cases h2 : (dataAt cols idx).isEmpty
      · simp [h1, h2] at hmem
      · refine ⟨idx, hidx, h1, ?_, ?_⟩
        · intro hnil
          rw [hnil] at h2
          exact h2 rfl
        · simpa [h1, h2] using hmem
  · right
    rcases List.mem_flatMap.mp h with ⟨idx, hidx, hmem⟩
    by_cases h2 : (dataAt cols idx).isEmpty
    · simp [h2] at hmem
    · refine ⟨idx, hidx, ?_, ?_⟩
      · intro hnil
        rw [hnil] at h2
        exact h2 rfl
      · simpa [h2] using hmem

/-- C4: every comfort entry is a strict boolean — the `compliant` flag
produced by `check_comfort_conditions` is true exactly when the computed
out-of-band percentage (`percent_over` for humidity, `percent_outside`
for indoor temperature) is exactly zero, with no tolerance margin. -/
theorem comfort_compliant_iff_percent_zero (cols : List RawCol) (headers : List String)
    (m : Mapping) (r : ComfortResult) (hr : r ∈ checkComfortConditions cols headers m) :
    r.compliant = true ↔ r.percent = 0 := by
  rcases comfort_mem_cases hr with ⟨idx, -, -, -, he⟩ | ⟨idx, -, -, he⟩ <;>
    rw [he] <;> simp [rhComfortResult, tempComfortResult]

/-- C4 witness: a concrete one-column dataset whose only comfort entry
is compliant with zero percent out of band. -/
theorem comfort_compliant_iff_percent_zero_witness :
    (rhComfortResult "Room RH" [55]).compliant = true ↔
      (rhComfortResult "Room RH" [55]).percent = 0 :=
  comfort_compliant_iff_percent_zero [[some 55]] ["Room RH"]
    (parseHeadersEnhanced ["Room RH"]) _
    (by
      have h0 : (0 : ℕ) ∈ (parseHeadersEnhanced ["Room RH"]).indoorRH := by decide
      unfold checkComfortConditions
      refine List.mem_append.mpr (Or.inl (List.mem_flatMap.mpr ⟨0, h0, ?_⟩))
      simp [headerAt, dataAt, colAt, dropna])

/-- C7: the comfort checker skips exactly the known-bad header literal
`'1SprHtSP'` from indoor-humidity evaluation by exact name match — no
humidity entry is ever produced for a column with that header — while
every other classified indoor-RH column whose coerced series is
non-empty does produce a humidity entry. -/
theorem sentinel_rh_skip (cols : List RawCol) (headers : List String) (m : Mapping) :
    (∀ r ∈ checkComfortConditions cols headers m,
        r.type = "Indoor Relative Humidity" → r.column ≠ "1SprHtSP") ∧
    (∀ idx ∈ m.indoorRH, headerAt headers idx ≠ "1SprHtSP" → dataAt cols idx ≠ [] →
        ∃ r ∈ checkComfortConditions cols headers m,
          r.type = "Indoor Relative Humidity" ∧ r.column = headerAt headers idx) := by
  constructor
  · intro r hr htype
    rcases comfort_mem_cases hr with ⟨idx, -, h1, -, he⟩ | ⟨idx, -, -, he⟩
    · rw [he]
      exact h1
    · rw [he] at htype
      simp [tempComfortResult] at htype
  · intro idx hidx h1 h2
    refine ⟨rhComfortResult (headerAt headers idx) (dataAt cols idx), ?_, rfl, rfl⟩
    unfold checkComfortConditions
    refine List.mem_append.mpr (Or.inl (List.mem_flatMap.mpr ⟨idx, hidx, ?_⟩))
    have h2' : (dataAt cols idx).isEmpty = false := by
      cases hd : dataAt cols idx
      · exact absurd hd h2
      · simp [hd]
    simp [h1, h2']

/-- C7 witness: with the sentinel column and one genuine indoor-RH
column present, a humidity entry exists for the genuine column. -/
theorem sentinel_rh_skip_witness :
    ∃ r ∈ checkComfortConditions [[some 70], [some 50]] ["1SprHtSP", "Zone RH"]
        (parseHeadersEnhanced ["1SprHtSP", "Zone RH"]),
      r.type = "Indoor Relative Humidity" ∧ r.column = "Zone RH" :=
  (sentinel_rh_skip [[some 70], [some 50]] ["1SprHtSP", "Zone RH"]
    (parseHeadersEnhanced ["1SprHtSP", "Zone RH"])).2 1 (by decide) (by decide) (by decide)

theorem isEmpty_false_of_ne_nil {α} {l : List α} (h : l ≠ []) : l.isEmpty = false := by
  cases l
  · exact absurd rfl h
  · rfl

theorem lowSuction_mem_block {h : String} {data : List ℚ} (hne : data ≠ [])
    (hlow : mean data < 50) : lowSuctionF h ∈ suctionPressureFindings h data := by
  have h200 : ¬(200 < mean data) := by intro hgt; linarith
  unfold suctionPressureFindings
  rw [isEmpty_false_of_ne_nil hne]
  simp only [Bool.false_eq_true, if_false]
  refine List.mem_append.mpr (Or.inl ?_)
  rw [if_neg h200, if_pos hlow]
  exact List.mem_singleton.mpr rfl

/-- C3: for every suction-pressure column whose coerced series is
non-empty with mean below the low-suction threshold — the file
implements the stricter variant, `mean < 50` at source line 201 — rule
evaluation emits a "Low suction pressure" Finding for that column with
the corresponding severity of that variant (medium) and a non-empty
suggestions list. -/
theorem low_suction_emits_finding (cols : List RawCol) (headers : List String) (m : Mapping)
    (idx : ℕ) (hmem : idx ∈ m.suctionPressures) (hne : dataAt cols idx ≠ [])
    (hlow : mean (dataAt cols idx) < 50) :
    ∃ f ∈ analyzeHvacDataEnhanced cols headers m,
      f.message = "Low suction pressure detected in " ++ headerAt headers idx ∧
      f.severity = "medium" ∧ f.suggestions ≠ [] := by
  refine ⟨lowSuctionF (headerAt headers idx), ?_, rfl, rfl, by simp [lowSuctionF]⟩
  unfold analyzeHvacDataEnhanced
  simp only [List.mem_append]
  iterate 15 refine Or.inl ?_
  exact List.mem_flatMap.mpr ⟨idx, hmem, lowSuction_mem_block hne hlow⟩

set_option maxHeartbeats 1000000 in
/-- C3 witness: Scenario A — headers `["Date","Time","SucPr1","Dischg1"]`
with the suction-pressure column averaging 40 PSI. -/
theorem low_suction_emits_finding_witness :
    ∃ f ∈ analyzeHvacDataEnhanced [[none], [none], [some 40], [some 300]]
        ["Date", "Time", "SucPr1", "Dischg1"]
        (parseHeadersEnhanced ["Date", "Time", "SucPr1", "Dischg1"]),
      f.message = "Low suction pressure detected in "
          ++ headerAt ["Date", "Time", "SucPr1", "Dischg1"] 2 ∧
      f.severity = "medium" ∧ f.suggestions ≠ [] :=
  low_suction_emits_finding [[none], [none], [some 40], [some 300]]
    ["Date", "Time", "SucPr1", "Dischg1"]
    (parseHeadersEnhanced ["Date", "Time", "SucPr1", "Dischg1"]) 2
    (by decide) (by decide)
    (by norm_num [dataAt, colAt, dropna, mean, qsum, List.getD_cons_succ, List.getD_cons_zero,
      List.filterMap_cons, List.filterMap_nil, id_eq, List.foldl_cons, List.foldl_nil])

theorem dataAt_empty {cols : List RawCol} (hc : ∀ c ∈ cols, dropna c = []) (idx : ℕ) :
    dataAt cols idx = [] := by
  unfold dataAt colAt
  rcases h : cols[idx]? with _ | c
  · rw [List.getD_eq_getElem?_getD, h]
    rfl
  · rw [List.getD_eq_getElem?_getD, h]
    exact hc c (List.getElem?_mem h)

theorem flatMap_const_nil {α β} (l : List α) : (l.flatMap fun _ => ([] : List β)) = [] := by
  induction l <;> simp_all

theorem analyze_all_empty {cols : List RawCol} {headers : List String} {m : Mapping}
    (hc : ∀ c ∈ cols, dropna c = []) :
    analyzeHvacDataEnhanced cols headers m = [] := by
  have hd : ∀ idx, dataAt cols idx = [] := dataAt_empty hc
  unfold analyzeHvacDataEnhanced
  simp [hd, suctionPressureFindings, dischargePressureFindings, suctionTempFindings,
    supplyAirFindings, ratioFindings, indoorRHFindings, outdoorTempFindings, tempDiffFindings,
    shortCycleFindings, subcoolingFindings, setpointFindings, migrationFindings,
    flowRestrictionFindings, declineFindings, icingFindings, huntingFindings,
    flatMap_const_nil]

theorem comfort_all_empty {cols : List RawCol} {headers : List String} {m : Mapping}
    (hc : ∀ c ∈ cols, dropna c = []) :
    checkComfortConditions cols headers m = [] := by
  have hd : ∀ idx, dataAt cols idx = [] := dataAt_empty hc
  unfold checkComfortConditions
  simp [hd, flatMap_const_nil]

/-- C8: numeric coercion never substitutes a value — the coerced series
holds only successfully converted entries and is never longer than the
raw column — and every rule whose required coerced series is empty is
skipped entirely: when every column coerces to the empty series (in
particular for zero data rows) classification still succeeds and rule
evaluation produces no Finding and no ComfortResult. -/
theorem coercion_never_substitutes_and_empty_is_noop :
    (∀ col : RawCol, (dropna col).length ≤ col.length ∧ ∀ x ∈ dropna col, some x ∈ col) ∧
    (∀ (cols : List RawCol) (headers : List String) (m : Mapping),
        (∀ c ∈ cols, dropna c = []) →
        analyzeHvacDataEnhanced cols headers m = [] ∧
          checkComfortConditions cols headers m = []) := by
  constructor
  · intro col
    constructor
    · exact List.length_filterMap_le id col
    · intro x hx
      rcases List.mem_filterMap.mp hx with ⟨a, ha, hax⟩
      rwa [show a = some x from hax] at ha
  · intro cols headers m hc
    exact ⟨analyze_all_empty hc, comfort_all_empty hc⟩

/-- C8 witness: a two-column dataset with zero data rows yields no
findings and no comfort results. -/
theorem coercion_never_substitutes_and_empty_is_noop_witness :
    analyzeHvacDataEnhanced [[], []] ["Date", "SucPr1"]
        (parseHeadersEnhanced ["Date", "SucPr1"]) = [] ∧
      checkComfortConditions [[], []] ["Date", "SucPr1"]
        (parseHeadersEnhanced ["Date", "SucPr1"]) = [] :=
  coercion_never_substitutes_and_empty_is_noop.2 [[], []] ["Date", "SucPr1"]
    (parseHeadersEnhanced ["Date", "SucPr1"]) (by decide)

theorem str_append_cancel {s a b : String} (h : s ++ a = s ++ b) : a = b := by
  rcases s with ⟨ls⟩
  rcases a with ⟨la⟩
  rcases b with ⟨lb⟩
  have hd : ls ++ la = ls ++ lb := congrArg String.data h
  exact congrArg String.mk (List.append_cancel_left hd)

theorem filter_flatMap_eq {α : Type} (l : List α) (g : α → List Finding) (p : Finding → Bool) :
    (l.flatMap g).filter p = l.flatMap fun a => (g a).filter p := by
  induction l with
  | nil => rfl
  | cons a t ih => simp [List.flatMap_cons, List.filter_append, ih]

theorem flatMap_eq_nil_of {α : Type} (l : List α) (g : α → List Finding)
    (h : ∀ a ∈ l, g a = []) : l.flatMap g = [] := by
  induction l with
  | nil => rfl
  | cons a t ih =>
    simp [List.flatMap_cons, h a (by simp), ih fun x hx => h x (by simp [hx])]

theorem hc_false_of_sev (h : String) (f : Finding) (hf : f.severity ≠ "high") :
    isHighCondenserFor h f = false := by
  unfold isHighCondenserFor
  rw [beq_eq_false_iff_ne.mpr hf]
  simp

theorem hc_false_of_issue (h : String) (f : Finding) (hf : f.issue_type ≠ "condenser_system") :
    isHighCondenserFor h f = false := by
  unfold isHighCondenserFor
  rw [beq_eq_false_iff_ne.mpr hf]
  simp

theorem suction_filter_nil (h hcol : String) (data : List ℚ) :
    (suctionPressureFindings hcol data).filter (isHighCondenserFor h) = [] := by
  have h1 : ∀ hc, isHighCondenserFor h (highSuctionF hc) = false := fun hc =>
    hc_false_of_issue h _ (by intro hcontra; simp [highSuctionF] at hcontra)
  have h2 : ∀ hc, isHighCondenserFor h (lowSuctionF hc) = false := fun hc =>
    hc_false_of_issue h _ (by intro hcontra; simp [lowSuctionF] at hcontra)
  have h3 : ∀ hc, isHighCondenserFor h (suctionVariabilityF hc) = false := fun hc =>
    hc_false_of_issue h _ (by intro hcontra; simp [suctionVariabilityF] at hcontra)
  unfold suctionPressureFindings
  repeat' split <;> simp [h1, h2, h3, List.filter_append, List.filter_cons]

theorem suctionTemp_filter_nil (h hcol : String) (data : List ℚ) :
    (suctionTempFindings hcol data).filter (isHighCondenserFor h) = [] := by
  have h1 : ∀ hc, isHighCondenserFor h (sucTempHighF hc) = false := fun hc =>
    hc_false_of_issue h _ (by intro hcontra; simp [sucTempHighF] at hcontra)
  have h2 : ∀ hc, isHighCondenserFor h (sucTempLowF hc) = false := fun hc =>
    hc_false_of_issue h _ (by intro hcontra; simp [sucTempLowF] at hcontra)
  have h3 : ∀ hc, isHighCondenserFor h (sucTempInstabF hc) = false := fun hc =>
    hc_false_of_issue h _ (by intro hcontra; simp [sucTempInstabF] at hcontra)
  unfold suctionTempFindings
  repeat' split <;> simp [h1, h2, h3, List.filter_append, List.filter_cons]

theorem supplyAir_filter_nil (h hcol : String) (data : List ℚ) :
    (supplyAirFindings hcol data).filter (isHighCondenserFor h) = [] := by
  have h1 : ∀ hc, isHighCondenserFor h (supplyHighF hc) = false := fun hc =>
    hc_false_of_issue h _ (by intro hcontra; simp [supplyHighF] at hcontra)
  have h2 : ∀ hc, isHighCondenserFor h (supplyLowF hc) = false := fun hc =>
    hc_false_of_issue h _ (by intro hcontra; simp [supplyLowF] at hcontra)
  have h3 : ∀ hc, isHighCondenserFor h (supplySpreadF hc) = false := fun hc =>
    hc_false_of_issue h _ (by intro hcontra; simp [supplySpreadF] at hcontra)
  unfold supplyAirFindings
  repeat' split <;> simp [h1, h2, h3, List.filter_append, List.filter_cons]

theorem ratio_filter_nil (h : String) (d1 d2 : List ℚ) :
    (ratioFindings d1 d2).filter (isHighCondenserFor h) = [] := by
  have h1 : isHighCondenserFor h ratioHighF = false := hc_false_of_issue h _ (by decide)
  have h2 : isHighCondenserFor h ratioLowF = false := hc_false_of_issue h _ (by decide)
  unfold ratioFindings
  repeat' split <;> simp [h1, h2, List.filter_cons]

theorem indoorRH_filter_nil (h hcol : String) (data : List ℚ) :
    (indoorRHFindings hcol data).filter (isHighCondenserFor h) = [] := by
  have h1 : ∀ hc, isHighCondenserFor h (rhHighF hc) = false := fun hc =>
    hc_false_of_issue h _ (by intro hcontra; simp [rhHighF] at hcontra)
  have h2 : ∀ hc, isHighCondenserFor h (rhLowF hc) = false := fun hc =>
    hc_false_of_issue h _ (by intro hcontra; simp [rhLowF] at hcontra)
  have h3 : ∀ hc, isHighCondenserFor h (rhUnstableF hc) = false := fun hc =>
    hc_false_of_issue h _ (by intro hcontra; simp [rhUnstableF] at hcontra)
  unfold indoorRHFindings
  repeat' split <;> simp [h1, h2, h3, List.filter_append, List.filter_cons]

theorem outdoorTemp_filter_nil (h : String) (data : List ℚ) :
    (outdoorTempFindings data).filter (isHighCondenserFor h) = [] := by
  have h1 : isHighCondenserFor h extremeOutdoorF = false := hc_false_of_issue h _ (by decide)
  have h2 : isHighCondenserFor h freezingOutdoorF = false := hc_false_of_issue h _ (by decide)
  unfold outdoorTempFindings
  repeat' split <;> simp [h1, h2, List.filter_append, List.filter_cons]

theorem tempDiff_filter_nil (h : String) (d1 d2 : List ℚ) :
    (tempDiffFindings d1 d2).filter (isHighCondenserFor h) = [] := by
  have h1 : isHighCondenserFor h lowDiffF = false := hc_false_of_issue h _ (by decide)
  have h2 : isHighCondenserFor h highDiffF = false := hc_false_of_issue h _ (by decide)
  unfold tempDiffFindings
  repeat' split <;> simp [h1, h2, List.filter_cons]

theorem shortCycle_filter_nil (h hcol : String) (data : List ℚ) :
    (shortCycleFindings hcol data).filter (isHighCondenserFor h) = [] := by
  have h1 : ∀ hc, isHighCondenserFor h (shortCyclingF hc) = false := fun hc =>
    hc_false_of_issue h _ (by intro hcontra; simp [shortCyclingF] at hcontra)
  unfold shortCycleFindings
  repeat' split <;> simp [h1, List.filter_cons]

theorem subcooling_filter_nil (h : String) (d1 d2 : List ℚ) :
    (subcoolingFindings d1 d2).filter (isHighCondenserFor h) = [] := by
  have h1 : isHighCondenserFor h subcoolLowF = false := hc_false_of_issue h _ (by decide)
  have h2 : isHighCondenserFor h subcoolHighF = false := hc_false_of_issue h _ (by decide)
  unfold subcoolingFindings
  repeat' split <;> simp [h1, h2, List.filter_cons]

theorem setpoint_filter_nil (h : String) (d1 d2 : List ℚ) :
    (setpointFindings d1 d2).filter (isHighCondenserFor h) = [] := by
  have h1 : isHighCondenserFor h overshootF = false := hc_false_of_issue h _ (by decide)
  have h2 : isHighCondenserFor h undershootF = false := hc_false_of_issue h _ (by decide)
  unfold setpointFindings
  repeat' split <;> simp [h1, h2, List.filter_cons]

theorem migration_filter_nil (h hcol : String) (data : List ℚ) :
    (migrationFindings hcol data).filter (isHighCondenserFor h) = [] := by
  have h1 : ∀ hc, isHighCondenserFor h (migrationF hc) = false := fun hc =>
    hc_false_of_issue h _ (by intro hcontra; simp [migrationF] at hcontra)
  unfold migrationFindings
  repeat' split <;> simp [h1, List.filter_cons]

theorem flowRestriction_filter_nil (h : String) (d1 d2 : List ℚ) :
    (flowRestrictionFindings d1 d2).filter (isHighCondenserFor h) = [] := by
  have h1 : isHighCondenserFor h flowRestrictionF = false := hc_false_of_issue h _ (by decide)
  unfold flowRestrictionFindings
  repeat' split <;> simp [h1, List.filter_cons]

theorem decline_filter_nil (h hcol : String) (data : List ℚ) :
    (declineFindings hcol data).filter (isHighCondenserFor h) = [] := by
  have h1 : ∀ hc, isHighCondenserFor h (declineF hc) = false := fun hc =>
    hc_false_of_issue h _ (by intro hcontra; simp [declineF] at hcontra)
  unfold declineFindings
  repeat' split
  all_goals simp [h1, List.filter_cons]

theorem icing_filter_nil (h hcol : String) (data : List ℚ) :
    (icingFindings hcol data).filter (isHighCondenserFor h) = [] := by
  have h1 : ∀ hc, isHighCondenserFor h (icingF hc) = false := fun hc =>
    hc_false_of_issue h _ (by intro hcontra; simp [icingF] at hcontra)
  unfold icingFindings
  repeat' split <;> simp [h1, List.filter_cons]

theorem hunting_filter_nil (h hcol : String) (data : List ℚ) :
    (huntingFindings hcol data).filter (isHighCondenserFor h) = [] := by
  have h1 : ∀ hc, isHighCondenserFor h (huntingF hc) = false := fun hc =>
    hc_false_of_issue h _ (by intro hcontra; simp [huntingF] at hcontra)
  unfold huntingFindings
  repeat' split <;> simp [h1, List.filter_cons]

theorem discharge_filter_self {h : String} {data : List ℚ} (hne : data ≠ [])
    (h400 : 400 < mean data) :
    (dischargePressureFindings h data).filter (isHighCondenserFor h) = [highDischargeF h] := by
  unfold dischargePressureFindings
  rw [isEmpty_false_of_ne_nil hne]
  simp only [Bool.false_eq_true, if_false]
  rw [if_pos h400, List.filter_append]
  have h2 : ((if stdGT data 20 then [unstableDischargeF h] else []).filter
      (isHighCondenserFor h)) = [] := by
    split <;> simp [isHighCondenserFor, unstableDischargeF]
  rw [h2]
  simp [List.filter_cons, isHighCondenserFor, highDischargeF]

theorem discharge_filter_other {h hcol : String} (hne : hcol ≠ h) (data : List ℚ) :
    (dischargePressureFindings hcol data).filter (isHighCondenserFor h) = [] := by
  have hmsg : (("High discharge pressure detected in " ++ hcol)
      == ("High discharge pressure detected in " ++ h)) = false := by
    rw [beq_eq_false_iff_ne]
    intro hcontra
    exact hne (str_append_cancel hcontra)
  unfold dischargePressureFindings
  split
  · rfl
  rw [List.filter_append, List.append_eq_nil]
  constructor <;> (repeat' split) <;>
    simp [isHighCondenserFor, highDischargeF, lowDischargeF, unstableDischargeF, hmsg]

theorem discharge_flatMap_filter (cols : List RawCol) (headers : List String) (idx : ℕ)
    (hne : dataAt cols idx ≠ []) (h400 : 400 < mean (dataAt cols idx)) :
    ∀ l : List ℕ, l.count idx = 1 →
      (∀ j ∈ l, headerAt headers j = headerAt headers idx → j = idx) →
      ((l.flatMap fun i =>
          dischargePressureFindings (headerAt headers i) (dataAt cols i)).filter
        (isHighCondenserFor (headerAt headers idx)))
        = [highDischargeF (headerAt headers idx)] := by
  intro l
  induction l with
  | nil => intro h0; simp at h0
  | cons a t ih =>
    intro hcount hinj
    rw [List.flatMap_cons, List.filter_append]
    by_cases ha : a = idx
    · subst ha
      rw [discharge_filter_self hne h400]
      have hzero : t.count a = 0 := by
        rw [List.count_cons] at hcount
        simp at hcount
        omega
      have hnil : ((t.flatMap fun i =>
          dischargePressureFindings (headerAt headers i) (dataAt cols i)).filter
            (isHighCondenserFor (headerAt headers a))) = [] := by
        rw [filter_flatMap_eq]
        apply flatMap_eq_nil_of
        intro j hj
        have hja : j ≠ a := by
          intro hja
          rw [hja] at hj
          exact absurd hj (List.count_eq_zero.mp hzero)
        have hh : headerAt headers j ≠ headerAt headers a := fun hh =>
          hja (hinj j (List.mem_cons_of_mem a hj) hh)
        exact discharge_filter_other hh _
      rw [hnil]
      simp
    · have hhead : headerAt headers a ≠ headerAt headers idx := fun hh =>
        ha (hinj a (by simp) hh)
      rw [discharge_filter_other hhead]
      have hcount' : t.count idx = 1 := by
        rw [List.count_cons] at hcount
        simp [ha] at hcount
        omega
      have hinj' : ∀ j ∈ t, headerAt headers j = headerAt headers idx → j = idx :=
        fun j hj => hinj j (List.mem_cons_of_mem a hj)
      simpa using ih hcount' hinj'

/-- C5: for every discharge-pressure column, occurring once in the role
map with a header no other discharge column shares, whose coerced series
is non-empty with mean above 400 PSI, the full analysis output contains
exactly one high-severity finding with issue type `condenser_system`
carrying that column's high-discharge message, and "Clean condenser
coil" is among that finding's suggestions. -/
theorem high_discharge_unique_finding (cols : List RawCol) (headers : List String)
    (m : Mapping) (idx : ℕ)
    (hcount : m.dischargePressures.count idx = 1)
    (hinj : ∀ j ∈ m.dischargePressures, headerAt headers j = headerAt headers idx → j = idx)
    (hne : dataAt cols idx ≠ []) (h400 : 400 < mean (dataAt cols idx)) :
    ((analyzeHvacDataEnhanced cols headers m).filter
        (isHighCondenserFor (headerAt headers idx)))
        = [highDischargeF (headerAt headers idx)] ∧
      (highDischargeF (headerAt headers idx)).severity = "high" ∧
      (highDischargeF (headerAt headers idx)).issue_type = "condenser_system" ∧
      "Clean condenser coil" ∈ (highDischargeF (headerAt headers idx)).suggestions := by
  refine ⟨?_, rfl, rfl, by simp [highDischargeF]⟩
  unfold analyzeHvacDataEnhanced
  simp only [List.filter_append]
  rw [show ((m.suctionPressures.flatMap fun i =>
      suctionPressureFindings (headerAt headers i) (dataAt cols i)).filter
        (isHighCondenserFor (headerAt headers idx))) = [] by
    rw [filter_flatMap_eq]; exact flatMap_eq_nil_of _ _ fun a _ => suction_filter_nil _ _ _]
  rw [discharge_flatMap_filter cols headers idx hne h400 _ hcount hinj]
  rw [show ((m.suctionTemps.flatMap fun i =>
      suctionTempFindings (headerAt headers i) (dataAt cols i)).filter
        (isHighCondenserFor (headerAt headers idx))) = [] by
    rw [filter_flatMap_eq]; exact flatMap_eq_nil_of _ _ fun a _ => suctionTemp_filter_nil _ _ _]
  rw [show (((m.supplyAirTemps ++ m.dischargeTemps).flatMap fun i =>
      supplyAirFindings (headerAt headers i) (dataAt cols i)).filter
        (isHighCondenserFor (headerAt headers idx))) = [] by
    rw [filter_flatMap_eq]; exact flatMap_eq_nil_of _ _ fun a _ => supplyAir_filter_nil _ _ _]
  rw [show ((m.suctionPressures.flatMap fun i => m.dischargePressures.flatMap fun j =>
      ratioFindings (dataAt cols i) (dataAt cols j)).filter
        (isHighCondenserFor (headerAt headers idx))) = [] by
    rw [filter_flatMap_eq]
    refine flatMap_eq_nil_of _ _ fun a _ => ?_
    rw [filter_flatMap_eq]; exact flatMap_eq_nil_of _ _ fun b _ => ratio_filter_nil _ _ _]
  rw [show ((m.indoorRH.flatMap fun i =>
      indoorRHFindings (headerAt headers i) (dataAt cols i)).filter
        (isHighCondenserFor (headerAt headers idx))) = [] by
    rw [filter_flatMap_eq]; exact flatMap_eq_nil_of _ _ fun a _ => indoorRH_filter_nil _ _ _]
  rw [show ((m.outdoorAirTemps.flatMap fun i => outdoorTempFindings (dataAt cols i)).filter
        (isHighCondenserFor (headerAt headers idx))) = [] by
    rw [filter_flatMap_eq]; exact flatMap_eq_nil_of _ _ fun a _ => outdoorTemp_filter_nil _ _]
  rw [show ((m.supplyAirTemps.flatMap fun i => m.indoorTemps.flatMap fun j =>
      tempDiffFindings (dataAt cols i) (dataAt cols j)).filter
        (isHighCondenserFor (headerAt headers idx))) = [] by
    rw [filter_flatMap_eq]
    refine flatMap_eq_nil_of _ _ fun a _ => ?_
    rw [filter_flatMap_eq]; exact flatMap_eq_nil_of _ _ fun b _ => tempDiff_filter_nil _ _ _]
  rw [show (((m.suctionPressures ++ m.dischargePressures).flatMap fun i =>
      shortCycleFindings (headerAt headers i) (dataAt cols i)).filter
        (isHighCondenserFor (headerAt headers idx))) = [] by
    rw [filter_flatMap_eq]; exact flatMap_eq_nil_of _ _ fun a _ => shortCycle_filter_nil _ _ _]
  rw [show ((m.dischargeTemps.flatMap fun i => m.dischargePressures.flatMap fun j =>
      subcoolingFindings (dataAt cols i) (dataAt cols j)).filter
        (isHighCondenserFor (headerAt headers idx))) = [] by
    rw [filter_flatMap_eq]
    refine flatMap_eq_nil_of _ _ fun a _ => ?_
    rw [filter_flatMap_eq]; exact flatMap_eq_nil_of _ _ fun b _ => subcooling_filter_nil _ _ _]
  rw [show ((m.coolingSetpoints.flatMap fun i => m.indoorTemps.flatMap fun j =>
      setpointFindings (dataAt cols i) (dataAt cols j)).filter
        (isHighCondenserFor (headerAt headers idx))) = [] by
    rw [filter_flatMap_eq]
    refine flatMap_eq_nil_of _ _ fun a _ => ?_
    rw [filter_flatMap_eq]; exact flatMap_eq_nil_of _ _ fun b _ => setpoint_filter_nil _ _ _]
  rw [show ((m.suctionPressures.flatMap fun i =>
      migrationFindings (headerAt headers i) (dataAt cols i)).filter
        (isHighCondenserFor (headerAt headers idx))) = [] by
    rw [filter_flatMap_eq]; exact flatMap_eq_nil_of _ _ fun a _ => migration_filter_nil _ _ _]
  rw [show ((m.suctionPressures.flatMap fun i => m.dischargePressures.flatMap fun j =>
      flowRestrictionFindings (dataAt cols i) (dataAt cols j)).filter
        (isHighCondenserFor (headerAt headers idx))) = [] by
    rw [filter_flatMap_eq]
    refine flatMap_eq_nil_of _ _ fun a _ => ?_
    rw [filter_flatMap_eq]
    exact flatMap_eq_nil_of _ _ fun b _ => flowRestriction_filter_nil _ _ _]
  rw [show ((m.dischargePressures.flatMap fun i =>
      declineFindings (headerAt headers i) (dataAt cols i)).filter
        (isHighCondenserFor (headerAt headers idx))) = [] by
    rw [filter_flatMap_eq]; exact flatMap_eq_nil_of _ _ fun a _ => decline_filter_nil _ _ _]
  rw [show ((m.suctionTemps.flatMap fun i =>
      icingFindings (headerAt headers i) (dataAt cols i)).filter
        (isHighCondenserFor (headerAt headers idx))) = [] by
    rw [filter_flatMap_eq]; exact flatMap_eq_nil_of _ _ fun a _ => icing_filter_nil _ _ _]
  rw [show (((m.indoorTemps ++ m.supplyAirTemps).flatMap fun i =>
      huntingFindings (headerAt headers i) (dataAt cols i)).filter
        (isHighCondenserFor (headerAt headers idx))) = [] by
    rw [filter_flatMap_eq]; exact flatMap_eq_nil_of _ _ fun a _ => hunting_filter_nil _ _ _]
  simp

/-- C5 witness: a single discharge-pressure column with one sample at
450 PSI yields exactly the one high-severity condenser finding with
"Clean condenser coil" among its suggestions. -/
theorem high_discharge_unique_finding_witness :
    ((analyzeHvacDataEnhanced [[some 450]] ["Dischg1"]
        (parseHeadersEnhanced ["Dischg1"])).filter
        (isHighCondenserFor (headerAt ["Dischg1"] 0)))
        = [highDischargeF (headerAt ["Dischg1"] 0)] ∧
      (highDischargeF (headerAt ["Dischg1"] 0)).severity = "high" ∧
      (highDischargeF (headerAt ["Dischg1"] 0)).issue_type = "condenser_system" ∧
      "Clean condenser coil" ∈ (highDischargeF (headerAt ["Dischg1"] 0)).suggestions :=
  high_discharge_unique_finding [[some 450]] ["Dischg1"] (parseHeadersEnhanced ["Dischg1"]) 0
    (by decide) (by decide) (by decide)
    (by norm_num [dataAt, colAt, dropna, mean, qsum, List.getD_cons_zero,
      List.filterMap_cons, List.filterMap_nil, id_eq, List.foldl_cons, List.foldl_nil])

/-- C6 (the code evaluated at the failing input): with only a date role
configured and one data row `'31-May'`, the timeline builder returns the
synthetic sequence even under a parser that successfully parses every
string to the hour value 5 — the date-only branch of the source
references the local name `convert_date`, which is bound only inside the
date+time branch, so the pass raises `UnboundLocalError` on the first
row and the blanket `except` substitutes the synthetic sequence for the
whole column instead of per-row parsing. -/
theorem dateonly_bug_eval :
    createDatetimeColumn (fun _ => some 5) [["31-May"]] 1
        { emptyMapping with date := some 0 } = syntheticTimeline 1 ∧
      syntheticTimeline 1 = [some 0] ∧ some (5 : ℚ) ∉ syntheticTimeline 1 :=
  ⟨rfl, rfl, by decide⟩

/-- C10: the timeline builder is total — for every dataframe (columns of
equal length `n`) and role map it returns a `parsed_datetime` column of
length exactly `n`; whenever the building pass hits an exception (an
out-of-range configured column, or the date-only branch with its unbound
`convert_date`), the entire column becomes the synthetic hourly sequence
starting at the 2024-01-01 epoch, which contains no null entry and is
strictly increasing. -/
theorem timeline_total (parseDT : String → Option ℚ) (cols : List (List String)) (n : ℕ)
    (m : Mapping) (hlen : ∀ c ∈ cols, c.length = n) :
    (createDatetimeColumn parseDT cols n m).length = n ∧
      (∀ x ∈ syntheticTimeline n, x ≠ none) ∧
      List.Pairwise (fun a b => ∃ x y, a = some x ∧ b = some y ∧ x < y) (syntheticTimeline n) ∧
      (m.datetime = none → m.date.isSome → m.time = none →
        createDatetimeColumn parseDT cols n m = syntheticTimeline n) ∧
      (∀ i, m.datetime = some i → cols.length ≤ i →
        createDatetimeColumn parseDT cols n m = syntheticTimeline n) := by
  have hsyn : (syntheticTimeline n).length = n := by
    unfold syntheticTimeline
    rw [List.length_map, List.length_range]
  refine ⟨?_, ?_, ?_, ?_, ?_⟩
  · unfold createDatetimeColumn
    rcases hdt : m.datetime with _ | i
    · rcases hd : m.date with _ | d
      · dsimp only
        exact hsyn
      · rcases ht : m.time with _ | t
        · dsimp only
          exact hsyn
        · dsimp only
          by_cases h1 : d < cols.length
          · rw [dif_pos h1]
            by_cases h2 : t < cols.length
            · rw [dif_pos h2]
              split
              · rw [List.length_map, List.length_zip, List.length_map, List.length_map,
                  hlen _ (List.get_mem cols d h1), hlen _ (List.get_mem cols t h2)]
                exact min_self n
              · exact hsyn
            · rw [dif_neg h2]
              exact hsyn
          · rw [dif_neg h1]
            exact hsyn
    · dsimp only
      by_cases h1 : i < cols.length
      · rw [dif_pos h1, List.length_map]
        exact hlen _ (List.get_mem cols i h1)
      · rw [dif_neg h1]
        exact hsyn
  · intro x hx
    rcases List.mem_map.mp hx with ⟨k, -, hk⟩
    rw [← hk]
    simp
  · show List.Pairwise _ ((List.range n).map fun k : ℕ => some (k : ℚ))
    exact List.Pairwise.map (fun k : ℕ => some (k : ℚ))
      (fun a b hab => ⟨(a : ℚ), (b : ℚ), rfl, rfl, by exact_mod_cast hab⟩)
      (List.pairwise_lt_range n)
  · intro hdt hds htn
    rcases Option.isSome_iff_exists.mp hds with ⟨d, hd⟩
    unfold createDatetimeColumn
    rw [hdt, hd, htn]
  · intro i hdt hle
    unfold createDatetimeColumn
    rw [hdt]
    dsimp only
    rw [dif_neg (by omega)]

/-- C10 witness: a one-column, one-row frame with only a date role — the
timeline is the synthetic singleton of length 1. -/
theorem timeline_total_witness :
    (createDatetimeColumn (fun _ => none) [["x"]] 1
        { emptyMapping with date := some 0 }).length = 1 ∧
      (∀ x ∈ syntheticTimeline 1, x ≠ none) ∧
      List.Pairwise (fun a b => ∃ x y, a = some x ∧ b = some y ∧ x < y) (syntheticTimeline 1) ∧
      (({ emptyMapping with date := some 0 } : Mapping).datetime = none →
        ({ emptyMapping with date := some 0 } : Mapping).date.isSome →
        ({ emptyMapping with date := some 0 } : Mapping).time = none →
        createDatetimeColumn (fun _ => none) [["x"]] 1
          { emptyMapping with date := some 0 } = syntheticTimeline 1) ∧
      (∀ i, ({ emptyMapping with date := some 0 } : Mapping).datetime = some i →
        ([["x"]] : List (List String)).length ≤ i →
        createDatetimeColumn (fun _ => none) [["x"]] 1
          { emptyMapping with date := some 0 } = syntheticTimeline 1) :=
  timeline_total (fun _ => none) [["x"]] 1 { emptyMapping with date := some 0 } (by decide)

theorem emitFold_suffix (cap : Option ℕ) (msg sev : String) :
    ∀ (l : List String) (acc : List Action),
      ∃ t, l.foldl (emitStep cap msg sev) acc = acc ++ t ∧ ∀ x ∈ t, x.text ∈ l := by
  intro l
  induction l with
  | nil => exact fun acc => ⟨[], by simp, by simp⟩
  | cons s rest ih =>
    intro acc
    rw [List.foldl_cons]
    rcases ih (emitStep cap msg sev acc s) with ⟨t, ht, hmem⟩
    by_cases hc : ((acc.map Action.text).contains s || !capOk cap acc.length) = true
    · refine ⟨t, ?_, fun x hx => List.mem_cons_of_mem _ (hmem x hx)⟩
      rw [ht]
      unfold emitStep
      rw [if_pos hc]
    · refine ⟨⟨s, msg, sev⟩ :: t, ?_, ?_⟩
      · rw [ht]
        unfold emitStep
        rw [if_neg hc]
        simp
      · intro x hx
        rcases List.mem_cons.mp hx with rfl | hx
        · exact List.mem_cons_self _ _
        · exact List.mem_cons_of_mem _ (hmem x hx)

theorem emitOne_suffix (cap : Option ℕ) (acc : List Action) (f : PFinding) :
    ∃ t, emitOne cap acc f = acc ++ t ∧ ∀ x ∈ t, x.text ∈ f.suggestions :=
  emitFold_suffix cap f.message f.severity f.suggestions acc

theorem capOk_false_of_full {cap : Option ℕ} {n : ℕ} (h : capFull cap n) :
    capOk cap n = false := by
  rcases h with ⟨c, rfl, hc⟩
  unfold capOk
  exact decide_eq_false (by omega)

theorem capFull_mono {cap : Option ℕ} {n n' : ℕ} (h : capFull cap n) (hn : n ≤ n') :
    capFull cap n' := by
  rcases h with ⟨c, rfl, hc⟩
  exact ⟨c, rfl, le_trans hc hn⟩

theorem emitFold_frozen (cap : Option ℕ) (msg sev : String) :
    ∀ (l : List String) (acc : List Action), capFull cap acc.length →
      l.foldl (emitStep cap msg sev) acc = acc := by
  intro l
  induction l with
  | nil => exact fun acc _ => rfl
  | cons s rest ih =>
    intro acc hfull
    rw [List.foldl_cons]
    have hstep : emitStep cap msg sev acc s = acc := by
      unfold emitStep
      rw [capOk_false_of_full hfull]
      simp
    rw [hstep]
    exact ih acc hfull

theorem emitOne_frozen {cap : Option ℕ} {acc : List Action} (f : PFinding)
    (h : capFull cap acc.length) : emitOne cap acc f = acc :=
  emitFold_frozen cap f.message f.severity f.suggestions acc h

theorem aggFold_suffix (cap : Option ℕ) :
    ∀ (fs : List PFinding) (acc : List Action), ∃ t, fs.foldl (emitOne cap) acc = acc ++ t := by
  intro fs
  induction fs with
  | nil => exact fun acc => ⟨[], by simp⟩
  | cons f rest ih =>
    intro acc
    rw [List.foldl_cons]
    rcases emitOne_suffix cap acc f with ⟨t1, ht1, -⟩
    rcases ih (emitOne cap acc f) with ⟨t2, ht2⟩
    exact ⟨t1 ++ t2, by rw [ht2, ht1, List.append_assoc]⟩

theorem aggFold_frozen (cap : Option ℕ) :
    ∀ (fs : List PFinding) (acc : List Action), capFull cap acc.length →
      fs.foldl (emitOne cap) acc = acc := by
  intro fs
  induction fs with
  | nil => exact fun acc _ => rfl
  | cons f rest ih =>
    intro acc hfull
    rw [List.foldl_cons, emitOne_frozen f hfull]
    exact ih acc hfull

theorem emitFold_covers (cap : Option ℕ) (msg sev : String) (s : String) :
    ∀ (l : List String) (acc : List Action), s ∈ l →
      s ∈ (l.foldl (emitStep cap msg sev) acc).map Action.text ∨
        capFull cap (l.foldl (emitStep cap msg sev) acc).length := by
  intro l
  induction l with
  | nil => intro acc hs; exact absurd hs (List.not_mem_nil s)
  | cons s0 rest ih =>
    intro acc hs
    rw [List.foldl_cons]
    rcases List.mem_cons.mp hs with rfl | hrest
    · rcases emitFold_suffix cap msg sev rest (emitStep cap msg sev acc s) with ⟨t, ht, -⟩
      by_cases hin : (acc.map Action.text).contains s = true
      · left
        rw [ht]
        have hstep : acc.map Action.text ⊆ (emitStep cap msg sev acc s).map Action.text := by
          unfold emitStep
          split
          · exact fun x hx => hx
          · rw [List.map_append]
            exact fun x hx => List.mem_append_left _ hx
        rw [List.map_append]
        exact List.mem_append_left _ (hstep (by simpa using hin))
      · by_cases hcap : capOk cap acc.length = true
        · left
          have hcond : ¬((acc.map Action.text).contains s || !capOk cap acc.length) = true := by
            intro hX
            rcases (Bool.or_eq_true _ _).mp hX with hX | hX
            · exact hin hX
            · rw [hcap] at hX
              simp at hX
          rw [ht, List.map_append]
          refine List.mem_append_left _ ?_
          unfold emitStep
          rw [if_neg hcond]
          simp
        · right
          have hfull : capFull cap acc.length := by
            unfold capOk at hcap
            rcases cap with _ | c
            · simp at hcap
            · refine ⟨c, rfl, ?_⟩
              simp [capOk] at hcap
              omega
          have hstep : emitStep cap msg sev acc s = acc := by
            unfold emitStep
            rw [capOk_false_of_full hfull]
            simp
          rw [ht, hstep, List.length_append]
          exact capFull_mono hfull (by omega)
    · exact ih (emitStep cap msg sev acc s0) hrest

theorem emitOne_covers (cap : Option ℕ) (acc : List Action) (f : PFinding) (s : String)
    (hs : s ∈ f.suggestions) :
    s ∈ (emitOne cap acc f).map Action.text ∨ capFull cap (emitOne cap acc f).length :=
  emitFold_covers cap f.message f.severity s f.suggestions acc hs

theorem emitFold_nodup (cap : Option ℕ) (msg sev : String) :
    ∀ (l : List String) (acc : List Action), (acc.map Action.text).Nodup →
      ((l.foldl (emitStep cap msg sev) acc).map Action.text).Nodup := by
  intro l
  induction l with
  | nil => exact fun acc h => h
  | cons s rest ih =>
    intro acc h
    rw [List.foldl_cons]
    apply ih
    unfold emitStep
    split
    · exact h
    · rename_i hc
      have hnotin : s ∉ acc.map Action.text := by
        intro hmem
        exact hc ((Bool.or_eq_true _ _).mpr (Or.inl (by simpa using hmem)))
      rw [List.map_append, List.nodup_append]
      refine ⟨h, by simp, ?_⟩
      intro x hx hx2
      simp only [List.map_cons, List.map_nil, List.mem_singleton] at hx2
      rw [hx2] at hx
      exact hnotin hx

theorem aggFold_nodup (cap : Option ℕ) :
    ∀ (fs : List PFinding) (acc : List Action), (acc.map Action.text).Nodup →
      ((fs.foldl (emitOne cap) acc).map Action.text).Nodup := by
  intro fs
  induction fs with
  | nil => exact fun acc h => h
  | cons f rest ih =>
    intro acc h
    rw [List.foldl_cons]
    exact ih (emitOne cap acc f) (emitFold_nodup cap f.message f.severity f.suggestions acc h)

theorem aggregate_texts_nodup (cap : Option ℕ) (findings : List PFinding) :
    ((aggregate cap findings).map Action.text).Nodup :=
  aggFold_nodup cap (sortedFindings findings) [] (by simp)

theorem aggUpTo_succ (cap : Option ℕ) (fs : List PFinding) (k : ℕ)
    (hk : k < (sortedFindings fs).length) :
    aggUpTo cap fs (k + 1)
      = emitOne cap (aggUpTo cap fs k) ((sortedFindings fs).get ⟨k, hk⟩) := by
  unfold aggUpTo
  rw [List.take_succ, List.getElem?_eq_getElem hk, Option.toList_some, List.foldl_append]
  rfl

theorem aggUpTo_succ_suffix (cap : Option ℕ) (fs : List PFinding) (k : ℕ) :
    ∃ t, aggUpTo cap fs (k + 1) = aggUpTo cap fs k ++ t := by
  by_cases hk : k < (sortedFindings fs).length
  · rw [aggUpTo_succ cap fs k hk]
    rcases emitOne_suffix cap (aggUpTo cap fs k) ((sortedFindings fs).get ⟨k, hk⟩)
      with ⟨t, ht, -⟩
    exact ⟨t, ht⟩
  · refine ⟨[], ?_⟩
    unfold aggUpTo
    rw [List.take_of_length_le (by omega), List.take_of_length_le (by omega), List.append_nil]

theorem aggUpTo_mono (cap : Option ℕ) (fs : List PFinding) :
    ∀ {j k : ℕ}, j ≤ k → ∃ t, aggUpTo cap fs k = aggUpTo cap fs j ++ t := by
  intro j k h
  induction k with
  | zero =>
    rw [Nat.le_zero.mp h]
    exact ⟨[], by simp⟩
  | succ k ih =>
    by_cases hj : j = k + 1
    · rw [hj]
      exact ⟨[], by simp⟩
    · rcases ih (by omega) with ⟨t1, ht1⟩
      rcases aggUpTo_succ_suffix cap fs k with ⟨t2, ht2⟩
      exact ⟨t1 ++ t2, by rw [ht2, ht1, List.append_assoc]⟩

theorem aggUpTo_top (cap : Option ℕ) (fs : List PFinding) :
    aggUpTo cap fs ((sortedFindings fs).length) = aggregate cap fs := by
  unfold aggUpTo aggregate
  rw [List.take_length]

theorem aggregate_eq_resume (cap : Option ℕ) (fs : List PFinding) (k : ℕ) :
    aggregate cap fs = ((sortedFindings fs).drop k).foldl (emitOne cap) (aggUpTo cap fs k) := by
  unfold aggregate aggUpTo
  conv_lhs => rw [← List.take_append_drop k (sortedFindings fs)]
  rw [List.foldl_append]

/-- C9 (modelled from the spec, §4.5, since the Recommendation
Aggregator is not among the sources under src/): the aggregator
stable-sorts findings by priority ascending (missing priority
defaulting to the sentinel 99) and emits each suggestion in order only
when its text was not already emitted, stopping at the cap; hence the
Action list never contains two entries with identical suggestion text,
and an Action whose text comes from a priority-1 finding precedes any
Action whose text occurs only in priority-5 findings. -/
theorem aggregate_dedup_and_order (cap : Option ℕ) (findings : List PFinding) :
    ((aggregate cap findings).map Action.text).Nodup ∧
      (∀ a b : Action, a ∈ aggregate cap findings → b ∈ aggregate cap findings →
        (∃ f ∈ findings, f.priority = some 1 ∧ a.text ∈ f.suggestions) →
        (∀ f ∈ findings, b.text ∈ f.suggestions → f.priority = some 5) →
        ∃ l1 l2, aggregate cap findings = l1 ++ l2 ∧ a ∈ l1 ∧ b ∈ l2) := by
  refine ⟨aggregate_texts_nodup cap findings, ?_⟩
  intro a b ha hb h1 h5
  rcases h1 with ⟨f1, hf1mem, hf1p, hf1s⟩
  have hperm : (sortedFindings findings).Perm findings := List.perm_insertionSort aggRel findings
  haveI : IsTotal PFinding aggRel := ⟨fun f g => Nat.le_total (prioKey f) (prioKey g)⟩
  haveI : IsTrans PFinding aggRel := ⟨fun _ _ _ hfg hgh => Nat.le_trans hfg hgh⟩
  have hsorted : List.Sorted aggRel (sortedFindings findings) :=
    List.sorted_insertionSort aggRel findings
  have hf1s' : f1 ∈ sortedFindings findings := hperm.mem_iff.mpr hf1mem
  rcases List.mem_iff_get.mp hf1s' with ⟨q, hq⟩
  have hbex : ∃ k, b ∈ aggUpTo cap findings k :=
    ⟨(sortedFindings findings).length, by rw [aggUpTo_top cap findings]; exact hb⟩
  have hkBmem : b ∈ aggUpTo cap findings (Nat.find hbex) := Nat.find_spec hbex
  have hkBmin : ∀ j < Nat.find hbex, b ∉ aggUpTo cap findings j :=
    fun j hj => Nat.find_min hbex hj
  have hkB0 : 0 < Nat.find hbex := by
    rcases Nat.eq_zero_or_pos (Nat.find hbex) with h0 | h0
    · exfalso
      rw [h0] at hkBmem
      simp [aggUpTo] at hkBmem
    · exact h0
  have hkBle : Nat.find hbex ≤ (sortedFindings findings).length :=
    Nat.find_le (by rw [aggUpTo_top cap findings]; exact hb)
  have hkBlt : Nat.find hbex - 1 < (sortedFindings findings).length := by omega
  have hstep : aggUpTo cap findings (Nat.find hbex)
      = emitOne cap (aggUpTo cap findings (Nat.find hbex - 1))
          ((sortedFindings findings).get ⟨Nat.find hbex - 1, hkBlt⟩) := by
    have h := aggUpTo_succ cap findings (Nat.find hbex - 1) hkBlt
    rwa [Nat.sub_add_cancel hkB0] at h
  rcases emitOne_suffix cap (aggUpTo cap findings (Nat.find hbex - 1))
      ((sortedFindings findings).get ⟨Nat.find hbex - 1, hkBlt⟩) with ⟨tB, htB, htBtext⟩
  have hbtB : b ∈ tB := by
    have hmem2 : b ∈ aggUpTo cap findings (Nat.find hbex - 1) ++ tB := by
      rw [← htB, ← hstep]
      exact hkBmem
    rcases List.mem_append.mp hmem2 with h | h
    · exact absurd h (hkBmin (Nat.find hbex - 1) (by omega))
    · exact h
  have hbtext :
      b.text ∈ ((sortedFindings findings).get ⟨Nat.find hbex - 1, hkBlt⟩).suggestions :=
    htBtext b hbtB
  have hg5 : prioKey ((sortedFindings findings).get ⟨Nat.find hbex - 1, hkBlt⟩) = 5 := by
    have hmemf : (sortedFindings findings).get ⟨Nat.find hbex - 1, hkBlt⟩ ∈ findings :=
      hperm.mem_iff.mp (List.get_mem _ _ _)
    unfold prioKey
    rw [h5 _ hmemf hbtext]
    rfl
  have hq1 : prioKey ((sortedFindings findings).get q) = 1 := by
    unfold prioKey
    rw [hq, hf1p]
    rfl
  have hqlt : (q : ℕ) < Nat.find hbex - 1 := by
    by_contra hcon
    push_neg at hcon
    rcases lt_or_eq_of_le hcon with hlt | heq
    · have hfin : (⟨Nat.find hbex - 1, hkBlt⟩ : Fin (sortedFindings findings).length) < q :=
        hlt
      have hrel := hsorted.rel_get_of_lt hfin
      unfold aggRel at hrel
      rw [hg5, hq1] at hrel
      omega
    · have hfe : q = (⟨Nat.find hbex - 1, hkBlt⟩ : Fin (sortedFindings findings).length) :=
        Fin.ext heq.symm
      rw [hfe, hg5] at hq1
      omega
  have hsucc := aggUpTo_succ cap findings (q : ℕ) q.isLt
  have hget : (sortedFindings findings).get ⟨(q : ℕ), q.isLt⟩ = (sortedFindings findings).get q :=
    congrArg _ (Fin.ext rfl)
  rw [hget] at hsucc
  have haq : a ∈ aggUpTo cap findings ((q : ℕ) + 1) := by
    have hcov := emitOne_covers cap (aggUpTo cap findings (q : ℕ))
      ((sortedFindings findings).get q) a.text (by rw [hq]; exact hf1s)
    rcases hcov with hcov | hcov
    · have hcov' : a.text ∈ (aggUpTo cap findings ((q : ℕ) + 1)).map Action.text := by
        rw [hsucc]
        exact hcov
      rcases List.mem_map.mp hcov' with ⟨a', ha'mem, ha'text⟩
      rcases aggUpTo_mono cap findings
          (show (q : ℕ) + 1 ≤ (sortedFindings findings).length from q.isLt) with ⟨t', ht'⟩
      have ha'out : a' ∈ aggregate cap findings := by
        rw [← aggUpTo_top cap findings, ht']
        exact List.mem_append_left _ ha'mem
      have heqa : a' = a :=
        List.inj_on_of_nodup_map (aggregate_texts_nodup cap findings) ha'out ha ha'text
      rw [← heqa]
      exact ha'mem
    · have hfull : capFull cap (aggUpTo cap findings ((q : ℕ) + 1)).length := by
        rw [hsucc]
        exact hcov
      have hagg : aggregate cap findings = aggUpTo cap findings ((q : ℕ) + 1) := by
        rw [aggregate_eq_resume cap findings ((q : ℕ) + 1), aggFold_frozen cap _ _ hfull]
      rw [← hagg]
      exact ha
  rcases aggUpTo_mono cap findings
      (show Nat.find hbex - 1 ≤ (sortedFindings findings).length from by omega) with ⟨T, hT⟩
  have hout : aggregate cap findings = aggUpTo cap findings (Nat.find hbex - 1) ++ T := by
    rw [← aggUpTo_top cap findings]
    exact hT
  have haIn : a ∈ aggUpTo cap findings (Nat.find hbex - 1) := by
    rcases aggUpTo_mono cap findings (show (q : ℕ) + 1 ≤ Nat.find hbex - 1 from by omega)
      with ⟨t2, ht2⟩
    rw [ht2]
    exact List.mem_append_left _ haq
  have hbT : b ∈ T := by
    have hmem3 : b ∈ aggUpTo cap findings (Nat.find hbex - 1) ++ T := by
      rw [← hout]
      exact hb
    rcases List.mem_append.mp hmem3 with h | h
    · exact absurd h (hkBmin (Nat.find hbex - 1) (by omega))
    · exact h
  exact ⟨aggUpTo cap findings (Nat.find hbex - 1), T, hout, haIn, hbT⟩

/-- C9 witness: with a priority-5 finding declared before a priority-1
finding, the action from the priority-1 finding still precedes the
action from the priority-5 finding in the aggregated list. -/
theorem aggregate_dedup_and_order_witness :
    ∃ l1 l2,
      aggregate none [⟨some 5, "m5", "low", ["B"]⟩, ⟨some 1, "m1", "high", ["A"]⟩]
        = l1 ++ l2 ∧
      (⟨"A", "m1", "high"⟩ : Action) ∈ l1 ∧ (⟨"B", "m5", "low"⟩ : Action) ∈ l2 :=
  (aggregate_dedup_and_order none
      [⟨some 5, "m5", "low", ["B"]⟩, ⟨some 1, "m1", "high", ["A"]⟩]).2
    ⟨"A", "m1", "high"⟩ ⟨"B", "m5", "low"⟩ (by decide) (by decide)
    ⟨⟨some 1, "m1", "high", ["A"]⟩, by decide, rfl, by decide⟩ (by decide)

end HvacSpec
